import Mathlib

/-!
# zkbnb: scan cursor, block ingestion and mempool ledger

A shallow embedding of

* `common/model/l1BlockMonitor/l1BlockMonitor.go` (package `l1BlockMonitor`): the
  per-chain scan cursor and the transactional ingestion `CreateMonitorsInfo`;
* `common/model/mempool/mempoolDetailModel.go` (package `mempool`): the queries over
  the mempool balance-delta ledger.

Both files talk to a relational store through gorm.  A table is the list of its rows
in primary-key (insertion) order.  The part of gorm the two files rely on is modelled
in the namespace `gorm`: statement results carry `Error` and `RowsAffected` as in
`gorm.DB`, the database behind a write is a `Driver` (any behaviour at all), and
`Transaction` commits the closure's writes or rolls all of them back.
-/

/-! ## Records, errors and the store -/

/-- Go `error` values returned by the two models. -/
inductive DbError where
  /-- Modelled from the spec: the package-level `ErrNotFound` that both models return
  for "no matching row"; its declaration is outside the files at hand. §7 makes
  NotFound a kind of its own, apart from the errors that come from the store. -/
  | ErrNotFound
  /-- The value `gorm.ErrRecordNotFound`, which gorm itself raises from `First`. -/
  | ErrRecordNotFound
  /-- The value `errors.New(text)`. -/
  | New (text : String)
  /-- An error reported by the database (the StorageFailure kind of §7). -/
  | Store (code : Nat)
  deriving DecidableEq

namespace l1BlockMonitor

/-- The struct `L1BlockMonitor`: chain id (`uint8`), l1 block height (`int64`) and
block info, after the embedded `gorm.Model`. Of `gorm.Model`, `DeletedAt` is carried
with the value the caller set (a record created with it set is soft-deleted from the
start; times are instants on the integer line); the primary key is the row's
position in the table, and the two timestamps are read by no query of the model. -/
structure L1BlockMonitor where
  DeletedAt : Option Int
  ChainId : Nat
  L1BlockHeight : Int
  BlockInfo : String
  deriving DecidableEq

end l1BlockMonitor

namespace l2TxEventMonitor

/-- Modelled from the spec: the struct `L2TxEventMonitor` of package
`l2TxEventMonitor` is declared outside the files at hand; §3 makes a TxEvent a record
whose shape is owned by the scanning driver, so it is carried as its serialised
content. -/
structure L2TxEventMonitor where
  Content : String
  deriving DecidableEq

end l2TxEventMonitor

namespace l2BlockEventMonitor

/-- Modelled from the spec: the struct `L2BlockEventMonitor` of package
`l2BlockEventMonitor` is declared outside the files at hand; §3 makes a BlockEvent a
record whose shape is owned by the scanning driver, so it is carried as its
serialised content. -/
structure L2BlockEventMonitor where
  Content : String
  deriving DecidableEq

end l2BlockEventMonitor

open l1BlockMonitor (L1BlockMonitor)
open l2TxEventMonitor (L2TxEventMonitor)
open l2BlockEventMonitor (L2BlockEventMonitor)

/-- The database as the ingestion path sees it: the three tables `l1_block_monitor`,
`l2_tx_event_monitor` and `l2_block_event_monitor`, each the list of its rows in
primary-key order. -/
structure Store where
  l1_block_monitor : List L1BlockMonitor
  l2_tx_event_monitor : List L2TxEventMonitor
  l2_block_event_monitor : List L2BlockEventMonitor
  deriving DecidableEq

/-- An INSERT statement: the target table together with the rows to insert. -/
inductive InsertInto where
  | l1_block_monitor (rows : List L1BlockMonitor)
  | l2_tx_event_monitor (rows : List L2TxEventMonitor)
  | l2_block_event_monitor (rows : List L2BlockEventMonitor)
  deriving DecidableEq

/-! ## The part of gorm the models use -/

namespace gorm

/-- The handle a write returns (`*gorm.DB`): its `Error`, its `RowsAffected`, and the
contents of the connection once the statement has run. -/
structure DB where
  store : Store
  Error : Option DbError
  RowsAffected : Int
  deriving DecidableEq

/-- The handle a read returns (`*gorm.DB`) together with the destination it filled. -/
structure Found (α : Type) where
  Dest : α
  Error : Option DbError
  RowsAffected : Int
  deriving DecidableEq

/-- The database behind the connection. `Exec` runs one INSERT and answers with error,
affected-row count and resulting contents; `Begin` and `Commit` may be refused. No
behaviour is imposed: a driver may fail any statement and report any count. -/
structure Driver where
  Begin : Store → Option DbError
  Exec : Store → InsertInto → DB
  Commit : Store → Option DbError

/-- The call `db.Create(value)` for one record: a single-row INSERT. -/
def Create (d : Driver) (db : Store) (value : L1BlockMonitor) : DB :=
  d.Exec db (InsertInto.l1_block_monitor [value])

/-- The call `db.CreateInBatches(value, len(value))`, the only way the models call it.
gorm loops `for i := 0; i < len; i += batchSize`, adding up the rows affected: with
the batch size equal to the length that is no statement at all for an empty slice
(no error, zero rows) and one INSERT of the whole slice otherwise. -/
def CreateInBatches {α : Type} (d : Driver) (db : Store) (table : List α → InsertInto)
    (value : List α) : DB :=
  match value with
  | [] => { store := db, Error := none, RowsAffected := 0 }
  | _ :: _ => d.Exec db (table value)

/-- The call `db.Transaction(fc)`: `Begin`, run `fc` on the transaction handle, then
`Rollback` when `fc` returns an error (the contents are those from before `Begin`)
and `Commit` otherwise; a refused `Commit` is rolled back as well. -/
def Transaction (d : Driver) (db : Store) (fc : Store → Store × Option DbError) :
    Store × Option DbError :=
  match d.Begin db with
  | some e => (db, some e)
  | none =>
    match fc db with
    | (_, some e) => (db, some e)
    | (tx, none) =>
      match d.Commit tx with
      | some e => (db, some e)
      | none => (tx, none)

/-- The clause `Where(cond)`. -/
def Where {α : Type} (cond : α → Bool) (rows : List α) : List α :=
  rows.filter cond

/-- The clause `Order(by)`: the rows sorted by the relation; rows that tie keep their
table order. -/
def Order {α : Type} (r : α → α → Prop) [DecidableRel r] (rows : List α) : List α :=
  rows.insertionSort r

/-- The clause `Limit(n)`. -/
def Limit {α : Type} (n : Nat) (rows : List α) : List α :=
  rows.take n

/-- The finisher `Find(&dest)` with a slice destination: every row of the query. -/
def Find {α : Type} (rows : List α) : Found (List α) :=
  { Dest := rows, Error := none, RowsAffected := rows.length }

/-- The finisher `Find(&dest)` with a struct destination: gorm scans the first row of
the query only and counts it; no row is not an error. -/
def FindOne {α : Type} (rows : List α) : Found (Option α) :=
  match rows with
  | [] => { Dest := none, Error := none, RowsAffected := 0 }
  | r :: _ => { Dest := some r, Error := none, RowsAffected := 1 }

/-- The finisher `First(&dest)`: the first row by primary key (ties of an earlier
`Order` are broken by it); with no row gorm sets `Error` to `ErrRecordNotFound`. -/
def First {α : Type} (rows : List α) : Found (Option α) :=
  match rows with
  | [] => { Dest := none, Error := some DbError.ErrRecordNotFound, RowsAffected := 0 }
  | r :: _ => { Dest := some r, Error := none, RowsAffected := 1 }

/-- The clause `Order(by)` chained on a handle whose query `Find` has already run: it
only adds a clause to the returned handle; destination, error and count stay as the
executed query left them. -/
def Found.Order {α β : Type} (dbTx : Found β) (_r : α → α → Prop) : Found β :=
  dbTx

/-- A database in working order: an INSERT appends its rows to its table and reports
their number. -/
def sqlExec (db : Store) : InsertInto → DB
  | InsertInto.l1_block_monitor rows =>
    { store := { db with l1_block_monitor := db.l1_block_monitor ++ rows },
      Error := none, RowsAffected := rows.length }
  | InsertInto.l2_tx_event_monitor rows =>
    { store := { db with l2_tx_event_monitor := db.l2_tx_event_monitor ++ rows },
      Error := none, RowsAffected := rows.length }
  | InsertInto.l2_block_event_monitor rows =>
    { store := { db with l2_block_event_monitor := db.l2_block_event_monitor ++ rows },
      Error := none, RowsAffected := rows.length }

/-- The driver of a database in working order. -/
def sqlDriver : Driver :=
  { Begin := fun _ => none, Exec := sqlExec, Commit := fun _ => none }

/-- A database in working order except for the statements `fault` picks: those fail
with the given error and change nothing. -/
def faultyDriver (fault : InsertInto → Option DbError) : Driver :=
  { Begin := fun _ => none
    Exec := fun db stmt =>
      match fault stmt with
      | some e => { store := db, Error := some e, RowsAffected := 0 }
      | none => sqlExec db stmt
    Commit := fun _ => none }

/-- A database that adds to the block-record table no row but those an INSERT into
that table hands to it; the errors and affected-row counts it reports are free. -/
def Driver.AddsOnlyGiven (d : Driver) : Prop :=
  ∀ (db : Store) (stmt : InsertInto) (b : L1BlockMonitor),
    b ∈ (d.Exec db stmt).store.l1_block_monitor →
      b ∈ db.l1_block_monitor ∨ ∃ rows, stmt = InsertInto.l1_block_monitor rows ∧ b ∈ rows

end gorm

/-! ## Package `l1BlockMonitor` -/

namespace l1BlockMonitor

open gorm

/-- The order `l1_block_height`. -/
abbrev l1_block_height (a b : L1BlockMonitor) : Prop :=
  a.L1BlockHeight ≤ b.L1BlockHeight

/-- The order `l1_block_height desc`. -/
abbrev l1_block_height_desc (a b : L1BlockMonitor) : Prop :=
  b.L1BlockHeight ≤ a.L1BlockHeight

/-- The order `l1_block_height desc` compares any two rows. -/
instance : IsTotal L1BlockMonitor l1_block_height_desc :=
  ⟨fun a b => le_total b.L1BlockHeight a.L1BlockHeight⟩

/-- The order `l1_block_height desc` is transitive. -/
instance : IsTrans L1BlockMonitor l1_block_height_desc :=
  ⟨fun _ _ _ hab hbc => le_trans hbc hab⟩

/-- The call `m.DB.Table(m.table)` read into `L1BlockMonitor`: the struct embeds
`gorm.Model`, so gorm adds `deleted_at IS NULL` to the query. -/
def Table (m : Store) : List L1BlockMonitor :=
  m.l1_block_monitor.filter (fun b => b.DeletedAt = none)

/-- The method `CreateL1BlockMonitor` (l1BlockMonitor.go, lines 101-114): the contents
of the store after the call, and the returned pair. -/
def CreateL1BlockMonitor (d : Driver) (m : Store) (tx : L1BlockMonitor) :
    Store × Bool × Option DbError :=
  let dbTx := Create d m tx
  match dbTx.Error with
  | some e => (dbTx.store, false, some e)
  | none =>
    if dbTx.RowsAffected = 0 then
      (dbTx.store, false, some (DbError.New "invalid l1BlockMonitor"))
    else
      (dbTx.store, true, none)

/-- The method `CreateL1BlockMonitorsInBatches` (l1BlockMonitor.go, lines 122-133):
the contents of the store after the call, and the returned pair. -/
def CreateL1BlockMonitorsInBatches (d : Driver) (m : Store)
    (blockInfos : List L1BlockMonitor) : Store × Int × Option DbError :=
  let dbTx := CreateInBatches d m InsertInto.l1_block_monitor blockInfos
  match dbTx.Error with
  | some e => (dbTx.store, 0, some e)
  | none =>
    if dbTx.RowsAffected = 0 then
      (dbTx.store, 0, none)
    else
      (dbTx.store, dbTx.RowsAffected, none)

/-- The closure handed to `Transaction` by `CreateMonitorsInfo`
(l1BlockMonitor.go, lines 140-166). -/
def CreateMonitorsInfo.fc (d : Driver) (blockInfo : L1BlockMonitor)
    (txEventMonitors : List L2TxEventMonitor)
    (blockEventMonitors : List L2BlockEventMonitor) (tx : Store) :
    Store × Option DbError :=
  -- create data for l1 block info
  let dbTx := Create d tx blockInfo
  match dbTx.Error with
  | some e => (dbTx.store, some e)
  | none =>
    if dbTx.RowsAffected = 0 then
      (dbTx.store, some (DbError.New "[CreateMonitorsInfo] unable to create l1 block info"))
    else
      -- create data in batches for l2 tx event monitor
      let dbTx := CreateInBatches d dbTx.store InsertInto.l2_tx_event_monitor txEventMonitors
      match dbTx.Error with
      | some e => (dbTx.store, some e)
      | none =>
        if dbTx.RowsAffected ≠ (txEventMonitors.length : Int) then
          (dbTx.store,
            some (DbError.New "[CreateMonitorsInfo] unable to create l2 tx event monitors"))
        else
          -- create data in batches for l2 block event monitor
          let dbTx :=
            CreateInBatches d dbTx.store InsertInto.l2_block_event_monitor blockEventMonitors
          match dbTx.Error with
          | some e => (dbTx.store, some e)
          | none =>
            if dbTx.RowsAffected ≠ (blockEventMonitors.length : Int) then
              (dbTx.store,
                some (DbError.New
                  "[CreateMonitorsInfo] unable to create l2 block event monitors"))
            else
              (dbTx.store, none)

/-- The method `CreateMonitorsInfo` (l1BlockMonitor.go, lines 135-169): the contents
of the store after the call and the returned `err`. -/
def CreateMonitorsInfo (d : Driver) (m : Store) (blockInfo : L1BlockMonitor)
    (txEventMonitors : List L2TxEventMonitor)
    (blockEventMonitors : List L2BlockEventMonitor) : Store × Option DbError :=
  Transaction d m (CreateMonitorsInfo.fc d blockInfo txEventMonitors blockEventMonitors)

/-- The method `GetL1BlockMonitors` (l1BlockMonitor.go, lines 174-186). The source
chains `Order` after `Find`. -/
def GetL1BlockMonitors (m : Store) : List L1BlockMonitor × Option DbError :=
  let dbTx := (Find (Table m)).Order l1_block_height
  match dbTx.Error with
  | some e => ([], some e)
  | none =>
    if dbTx.RowsAffected = 0 then
      ([], some DbError.ErrNotFound)
    else
      (dbTx.Dest, dbTx.Error)

/-- The method `GetLatestL1BlockMonitor` (l1BlockMonitor.go, lines 193-205). -/
def GetLatestL1BlockMonitor (m : Store) : Option L1BlockMonitor × Option DbError :=
  let dbTx := First (Order l1_block_height_desc (Table m))
  match dbTx.Error with
  | some e => (none, some e)
  | none =>
    if dbTx.RowsAffected = 0 then
      (none, some DbError.ErrNotFound)
    else
      (dbTx.Dest, none)

/-- The method `GetL1BlockMonitorsByChainId` (l1BlockMonitor.go, lines 212-224). The
source chains `Order` after `Find`. -/
def GetL1BlockMonitorsByChainId (m : Store) (chainId : Nat) :
    List L1BlockMonitor × Option DbError :=
  let dbTx :=
    (Find (Where (fun b => b.ChainId = chainId) (Table m))).Order l1_block_height_desc
  match dbTx.Error with
  | some e => ([], some e)
  | none =>
    if dbTx.RowsAffected = 0 then
      ([], some DbError.ErrNotFound)
    else
      (dbTx.Dest, none)

/-- The method `GetLatestHandledBlockByChainId` (l1BlockMonitor.go, lines 231-243). -/
def GetLatestHandledBlockByChainId (m : Store) (chainId : Nat) :
    Option L1BlockMonitor × Option DbError :=
  let dbTx :=
    FindOne (Order l1_block_height_desc (Where (fun b => b.ChainId = chainId)
      (Table m)))
  match dbTx.Error with
  | some e => (none, some e)
  | none =>
    if dbTx.RowsAffected = 0 then
      (none, some DbError.ErrNotFound)
    else
      (dbTx.Dest, none)

/-- The method `GetL1BlockMonitorsByChainIdAndL1BlockHeight`
(l1BlockMonitor.go, lines 250-262). -/
def GetL1BlockMonitorsByChainIdAndL1BlockHeight (m : Store) (chainId : Nat)
    (l1BlockHeight : Int) : Option L1BlockMonitor × Option DbError :=
  let dbTx :=
    First (Where (fun b => b.ChainId = chainId ∧ b.L1BlockHeight = l1BlockHeight)
      (Table m))
  match dbTx.Error with
  | some e => (none, some e)
  | none =>
    if dbTx.RowsAffected = 0 then
      (none, some DbError.ErrNotFound)
    else
      (dbTx.Dest, none)

/-! ### Failure of an insert step of `CreateMonitorsInfo` -/

/-- The block insert of a `CreateMonitorsInfo` call fails: the store reports an error
for it, or the row-count check that follows it (line 146) fails. -/
abbrev blockInsertFails (d : Driver) (m : Store) (blockInfo : L1BlockMonitor) : Prop :=
  (Create d m blockInfo).Error ≠ none ∨ (Create d m blockInfo).RowsAffected = 0

/-- The tx-event insert of a `CreateMonitorsInfo` call fails: the store reports an
error for it, or the row-count check that follows it (line 154) fails. -/
abbrev txEventInsertFails (d : Driver) (m : Store) (blockInfo : L1BlockMonitor)
    (txEventMonitors : List L2TxEventMonitor) : Prop :=
  (CreateInBatches d (Create d m blockInfo).store InsertInto.l2_tx_event_monitor
      txEventMonitors).Error ≠ none ∨
  (CreateInBatches d (Create d m blockInfo).store InsertInto.l2_tx_event_monitor
      txEventMonitors).RowsAffected ≠ (txEventMonitors.length : Int)

/-- The block-event insert of a `CreateMonitorsInfo` call fails: the store reports an
error for it, or the row-count check that follows it (line 162) fails. -/
abbrev blockEventInsertFails (d : Driver) (m : Store) (blockInfo : L1BlockMonitor)
    (txEventMonitors : List L2TxEventMonitor)
    (blockEventMonitors : List L2BlockEventMonitor) : Prop :=
  (CreateInBatches d
      (CreateInBatches d (Create d m blockInfo).store InsertInto.l2_tx_event_monitor
        txEventMonitors).store
      InsertInto.l2_block_event_monitor blockEventMonitors).Error ≠ none ∨
  (CreateInBatches d
      (CreateInBatches d (Create d m blockInfo).store InsertInto.l2_tx_event_monitor
        txEventMonitors).store
      InsertInto.l2_block_event_monitor blockEventMonitors).RowsAffected ≠
    (blockEventMonitors.length : Int)

/-! ### Runs of calls -/

/-- One ingestion request: the arguments of a `CreateMonitorsInfo` call and the
statements the database fails while serving it. -/
structure Ingestion where
  fault : InsertInto → Option DbError
  blockInfo : L1BlockMonitor
  txEventMonitors : List L2TxEventMonitor
  blockEventMonitors : List L2BlockEventMonitor

/-- Sequential `CreateMonitorsInfo` calls, each on the store its predecessor left: the
final store when every call returned a nil error, nothing as soon as one call
returned an error. -/
def ingest (m : Store) : List Ingestion → Option Store
  | [] => some m
  | c :: cs =>
    match CreateMonitorsInfo (faultyDriver c.fault) m c.blockInfo c.txEventMonitors
        c.blockEventMonitors with
    | (m', none) => ingest m' cs
    | (_, some _) => none

/-- Sequential `CreateMonitorsInfo` calls, failed ones included, each on the store its
predecessor left: the final store and, in call order, the block records of the calls
that returned a nil error. -/
def ingestAll (m : Store) : List Ingestion → Store × List L1BlockMonitor
  | [] => (m, [])
  | c :: cs =>
    match CreateMonitorsInfo (faultyDriver c.fault) m c.blockInfo c.txEventMonitors
        c.blockEventMonitors with
    | (m', none) => ((ingestAll m' cs).1, c.blockInfo :: (ingestAll m' cs).2)
    | (m', some _) => ingestAll m' cs

/-- The data operations of the interface `L1BlockMonitorModel` with their arguments
(l1BlockMonitor.go, lines 36-43). -/
inductive Op where
  | CreateL1BlockMonitor (tx : L1BlockMonitor)
  | CreateL1BlockMonitorsInBatches (blockInfos : List L1BlockMonitor)
  | CreateMonitorsInfo (blockInfo : L1BlockMonitor)
      (txEventMonitors : List L2TxEventMonitor)
      (blockEventMonitors : List L2BlockEventMonitor)
  | GetL1BlockMonitors
  | GetLatestL1BlockMonitor
  | GetL1BlockMonitorsByChainId (chainId : Nat)
  | GetLatestHandledBlockByChainId (chainId : Nat)
  | GetL1BlockMonitorsByChainIdAndL1BlockHeight (chainId : Nat) (l1BlockHeight : Int)

/-- The lookups among the operations: the five `Get` methods. -/
def Op.lookup : Op → Bool
  | Op.CreateL1BlockMonitor _ => false
  | Op.CreateL1BlockMonitorsInBatches _ => false
  | Op.CreateMonitorsInfo _ _ _ => false
  | _ => true

/-- One call on the model: the operation and the database that serves it. -/
structure Call where
  driver : Driver
  op : Op

/-- The store a call leaves behind. The lookups return values and write nothing. -/
def Call.store (c : Call) (m : Store) : Store :=
  match c.op with
  | Op.CreateL1BlockMonitor tx => (CreateL1BlockMonitor c.driver m tx).1
  | Op.CreateL1BlockMonitorsInBatches blockInfos =>
    (CreateL1BlockMonitorsInBatches c.driver m blockInfos).1
  | Op.CreateMonitorsInfo blockInfo txEventMonitors blockEventMonitors =>
    (CreateMonitorsInfo c.driver m blockInfo txEventMonitors blockEventMonitors).1
  | _ => m

/-- The block records a call commits through a successful `CreateMonitorsInfo`
transaction: the record of the call when the call is a `CreateMonitorsInfo` that
returned a nil error, none otherwise. -/
def Call.ingested (c : Call) (m : Store) : List L1BlockMonitor :=
  match c.op with
  | Op.CreateMonitorsInfo blockInfo txEventMonitors blockEventMonitors =>
    if (CreateMonitorsInfo c.driver m blockInfo txEventMonitors
        blockEventMonitors).2 = none then [blockInfo] else []
  | _ => []

/-- The block records a call hands to the store outside any transaction: those of a
`CreateL1BlockMonitor` or `CreateL1BlockMonitorsInBatches` call, whatever the call
returns. -/
def Call.inserted (c : Call) : List L1BlockMonitor :=
  match c.op with
  | Op.CreateL1BlockMonitor tx => [tx]
  | Op.CreateL1BlockMonitorsInBatches blockInfos => blockInfos
  | _ => []

/-- What a run of calls leaves: the store, the block records committed by successful
`CreateMonitorsInfo` transactions, and the block records handed over by
`CreateL1BlockMonitor` and `CreateL1BlockMonitorsInBatches` calls. -/
structure Trace where
  store : Store
  ingested : List L1BlockMonitor
  inserted : List L1BlockMonitor

/-- The run of a sequence of calls from a given trace, first call first. -/
def run (t : Trace) : List Call → Trace
  | [] => t
  | c :: cs =>
    run { store := c.store t.store
          ingested := t.ingested ++ c.ingested t.store
          inserted := t.inserted ++ c.inserted } cs

/-- The empty store. -/
def emptyStore : Store :=
  { l1_block_monitor := [], l2_tx_event_monitor := [], l2_block_event_monitor := [] }

/-- The empty store with nothing committed yet. -/
def Trace.init : Trace :=
  { store := emptyStore, ingested := [], inserted := [] }

/-! ### The end-to-end scenario of §8 and the databases used in examples -/

/-- The block record of chain 1 at height 100. -/
def block100 : L1BlockMonitor :=
  { DeletedAt := none, ChainId := 1, L1BlockHeight := 100, BlockInfo := "0x64" }

/-- The block record of chain 1 at height 101. -/
def block101 : L1BlockMonitor :=
  { DeletedAt := none, ChainId := 1, L1BlockHeight := 101, BlockInfo := "0x65" }

/-- The block record of chain 1 at height 102. -/
def block102 : L1BlockMonitor :=
  { DeletedAt := none, ChainId := 1, L1BlockHeight := 102, BlockInfo := "0x66" }

/-- The block event found at height 100. -/
def blockEvent100 : L2BlockEventMonitor :=
  { Content := "commit" }

/-- The first tx event found at height 101. -/
def txEvent101a : L2TxEventMonitor :=
  { Content := "deposit" }

/-- The second tx event found at height 101. -/
def txEvent101b : L2TxEventMonitor :=
  { Content := "withdraw" }

/-- The store once height 100 of chain 1 is ingested with no tx event and one block
event. -/
def store100 : Store :=
  { l1_block_monitor := [block100], l2_tx_event_monitor := [],
    l2_block_event_monitor := [blockEvent100] }

/-- The store once heights 100 and 101 of chain 1 are ingested. -/
def store101 : Store :=
  { l1_block_monitor := [block100, block101],
    l2_tx_event_monitor := [txEvent101a, txEvent101b],
    l2_block_event_monitor := [blockEvent100] }

/-- No statement fails. -/
def noFault : InsertInto → Option DbError :=
  fun _ => none

/-- Every INSERT into the block-event table fails. -/
def failBlockEvents : InsertInto → Option DbError
  | InsertInto.l2_block_event_monitor _ => some (DbError.Store 1)
  | _ => none

/-- Every INSERT into the tx-event table fails. -/
def failTxEvents : InsertInto → Option DbError
  | InsertInto.l2_tx_event_monitor _ => some (DbError.Store 1)
  | _ => none

/-- A database in working order that reports two affected rows for the insert of a
block record. -/
def reportsTwo : Driver :=
  { sqlDriver with
    Exec := fun db stmt =>
      match stmt with
      | InsertInto.l1_block_monitor _ => { sqlExec db stmt with RowsAffected := 2 }
      | _ => sqlExec db stmt }

/-- A database in working order that keeps only the first row of a tx-event batch and
reports the one row it kept. -/
def keepsFirstTxEvent : Driver :=
  { sqlDriver with
    Exec := fun db stmt =>
      match stmt with
      | InsertInto.l2_tx_event_monitor rows =>
        sqlExec db (InsertInto.l2_tx_event_monitor (rows.take 1))
      | _ => sqlExec db stmt }

/-- The ingestion of height 100 of chain 1: no tx event, one block event. -/
def ingestion100 : Ingestion :=
  { fault := noFault, blockInfo := block100, txEventMonitors := [],
    blockEventMonitors := [blockEvent100] }

/-- The ingestion of height 101 of chain 1: two tx events, no block event. -/
def ingestion101 : Ingestion :=
  { fault := noFault, blockInfo := block101, txEventMonitors := [txEvent101a, txEvent101b],
    blockEventMonitors := [] }

/-- The block record of chain 1 at height 101 handed over with `DeletedAt` set. -/
def block101Deleted : L1BlockMonitor :=
  { DeletedAt := some 1, ChainId := 1, L1BlockHeight := 101, BlockInfo := "0x65" }

/-- The ingestion of height 101 of chain 1 with the record whose `DeletedAt` is set. -/
def ingestion101Deleted : Ingestion :=
  { fault := noFault, blockInfo := block101Deleted,
    txEventMonitors := [txEvent101a, txEvent101b], blockEventMonitors := [] }

/-- A block record of chain 2 at height 500. -/
def block500 : L1BlockMonitor :=
  { DeletedAt := none, ChainId := 2, L1BlockHeight := 500, BlockInfo := "0x1f4" }

/-- A block record of chain 2 at height 7. -/
def block7 : L1BlockMonitor :=
  { DeletedAt := none, ChainId := 2, L1BlockHeight := 7, BlockInfo := "0x7" }

/-- Ingestions of two chains interleaved, one of them failing: chain 1 at 100, chain 2
at 500, chain 1 at 101 failing at its tx events, chain 1 at 101 again, chain 2 at
7. -/
def interleaved : List Ingestion :=
  [ingestion100,
   { fault := noFault, blockInfo := block500, txEventMonitors := [],
     blockEventMonitors := [] },
   { fault := failTxEvents, blockInfo := block101,
     txEventMonitors := [txEvent101a, txEvent101b], blockEventMonitors := [] },
   ingestion101,
   { fault := noFault, blockInfo := block7, txEventMonitors := [],
     blockEventMonitors := [] }]

/-- Three ingestions of chain 1 submitted out of height order: 100, then 102, then
101, none with events. -/
def outOfOrder : List Ingestion :=
  [{ fault := noFault, blockInfo := block100, txEventMonitors := [],
     blockEventMonitors := [] },
   { fault := noFault, blockInfo := block102, txEventMonitors := [],
     blockEventMonitors := [] },
   { fault := noFault, blockInfo := block101, txEventMonitors := [],
     blockEventMonitors := [] }]

/-- The store the three out-of-order ingestions leave. -/
def storeOutOfOrder : Store :=
  { l1_block_monitor := [block100, block102, block101], l2_tx_event_monitor := [],
    l2_block_event_monitor := [] }

/-- A database that appends the rows of an INSERT and reports no affected row for the
insert of a block record. -/
def reportsZero : Driver :=
  { sqlDriver with
    Exec := fun db stmt =>
      match stmt with
      | InsertInto.l1_block_monitor _ => { sqlExec db stmt with RowsAffected := 0 }
      | _ => sqlExec db stmt }

/-- A run that inserts height 100 of chain 1 with `CreateL1BlockMonitor` and nothing
else. -/
def createOnly : List Call :=
  [{ driver := sqlDriver, op := Op.CreateL1BlockMonitor block100 }]

/-- The run of the scenario of §8 with the forced failure: height 100 is ingested, the
ingestion of height 101 fails at its tx events, the cursor is read, and height 102
is inserted with `CreateL1BlockMonitorsInBatches`. -/
def scenarioCalls : List Call :=
  [{ driver := sqlDriver, op := Op.CreateMonitorsInfo block100 [] [blockEvent100] },
   { driver := faultyDriver failTxEvents,
     op := Op.CreateMonitorsInfo block101 [txEvent101a, txEvent101b] [] },
   { driver := sqlDriver, op := Op.GetLatestHandledBlockByChainId 1 },
   { driver := sqlDriver, op := Op.CreateL1BlockMonitorsInBatches [block102] }]

/-- A run on a database that reports no affected row for a block record: the ingestion
of height 100 fails and is rolled back, and the `CreateL1BlockMonitor` call for
height 101 fails after the row is written. -/
def reportsZeroCalls : List Call :=
  [{ driver := reportsZero, op := Op.CreateMonitorsInfo block100 [] [blockEvent100] },
   { driver := reportsZero, op := Op.CreateL1BlockMonitor block101 }]

end l1BlockMonitor

/-! ## Package `mempool` -/

namespace mempool

open gorm

/-- A row of the table `mempool_detail`, created from the struct `MempoolTxDetail` by
`CreateMempoolDetailTable` (line 89). `ID`, `CreatedAt` and `DeletedAt` are the
columns of the embedded `gorm.Model` that the queries read (times are instants on
the integer line; `DeletedAt` is set on a soft-deleted row, which by §3 an external
cleanup may leave behind); the other seven are the fields of the struct. The struct
has no chain id, so the table has no column `chain_id`. -/
structure MempoolTxDetail where
  ID : Nat
  CreatedAt : Int
  DeletedAt : Option Int
  TxId : Int
  AssetId : Int
  AssetType : Int
  AccountIndex : Int
  AccountName : String
  Balance : String
  BalanceDelta : String
  deriving DecidableEq

/-- The struct `LatestTimeMempoolDetails`. -/
structure LatestTimeMempoolDetails where
  Max : Int
  AssetId : Int
  ChainId : Int
  deriving DecidableEq

/-- The call `m.DB.Table(m.table)` read into `MempoolTxDetail`: the struct embeds
`gorm.Model`, so gorm adds `deleted_at IS NULL` to the query. -/
def Table (m : List MempoolTxDetail) : List MempoolTxDetail :=
  m.filter (fun r => r.DeletedAt = none)

/-- The call `m.DB.Unscoped().Table(m.table)`: every row, soft-deleted ones too. -/
def Unscoped (m : List MempoolTxDetail) : List MempoolTxDetail :=
  m

/-- The order `created_at, id`. -/
abbrev created_at_id (a b : MempoolTxDetail) : Prop :=
  a.CreatedAt < b.CreatedAt ∨ (a.CreatedAt = b.CreatedAt ∧ a.ID ≤ b.ID)

/-- The order `created_at desc, id desc`. -/
abbrev created_at_desc_id_desc (a b : MempoolTxDetail) : Prop :=
  b.CreatedAt < a.CreatedAt ∨ (b.CreatedAt = a.CreatedAt ∧ b.ID ≤ a.ID)

/-- The three-key condition `account_index = ? and asset_id = ? and asset_type = ?`. -/
abbrev matchesAsset (accountIndex assetId assetType : Int) (r : MempoolTxDetail) : Prop :=
  r.AccountIndex = accountIndex ∧ r.AssetId = assetId ∧ r.AssetType = assetType

/-- The order `created_at, id` compares any two rows. -/
instance : IsTotal MempoolTxDetail created_at_id :=
  ⟨fun a b => by
    rcases lt_trichotomy a.CreatedAt b.CreatedAt with h | h | h
    · exact Or.inl (Or.inl h)
    · rcases le_total a.ID b.ID with h' | h'
      · exact Or.inl (Or.inr ⟨h, h'⟩)
      · exact Or.inr (Or.inr ⟨h.symm, h'⟩)
    · exact Or.inr (Or.inl h)⟩

/-- The order `created_at, id` is transitive. -/
instance : IsTrans MempoolTxDetail created_at_id :=
  ⟨fun a b c hab hbc => by
    rcases hab with h1 | ⟨h1, h1'⟩ <;> rcases hbc with h2 | ⟨h2, h2'⟩
    · exact Or.inl (lt_trans h1 h2)
    · exact Or.inl (h2 ▸ h1)
    · exact Or.inl (h1 ▸ h2)
    · exact Or.inr ⟨h1.trans h2, le_trans h1' h2'⟩⟩

/-- The order `created_at desc, id desc` compares any two rows. -/
instance : IsTotal MempoolTxDetail created_at_desc_id_desc :=
  ⟨fun a b => (IsTotal.total (r := created_at_id) a b).symm⟩

/-- The order `created_at desc, id desc` is transitive. -/
instance : IsTrans MempoolTxDetail created_at_desc_id_desc :=
  ⟨fun _ _ _ hab hbc => IsTrans.trans (r := created_at_id) _ _ _ hbc hab⟩

/-- The columns of the table `mempool_detail`: `CreateMempoolDetailTable` (line 89)
migrates the table from the struct `MempoolTxDetail`, which gives the four columns of
`gorm.Model` and one column per field. -/
def columns : List String :=
  ["id", "created_at", "updated_at", "deleted_at", "tx_id", "asset_id", "asset_type",
   "account_index", "account_name", "balance", "balance_delta"]

/-- The value of an integer column of a row, by the name of the column; nothing for a
name that is no integer column of the table. -/
def MempoolTxDetail.column (r : MempoolTxDetail) (name : String) : Option Int :=
  if name = "id" then some (r.ID : Int)
  else if name = "created_at" then some r.CreatedAt
  else if name = "tx_id" then some r.TxId
  else if name = "asset_id" then some r.AssetId
  else if name = "asset_type" then some r.AssetType
  else if name = "account_index" then some r.AccountIndex
  else none

/-- The SQL condition of a `Where` clause: `column = ?` with its argument,
`column != value`, and the conjunction `left and right`. -/
inductive Cond where
  | eq (column : String) (value : Int)
  | ne (column : String) (value : Int)
  | and (left right : Cond)
  deriving DecidableEq

/-- The columns a condition names. -/
def Cond.names : Cond → List String
  | Cond.eq column _ => [column]
  | Cond.ne column _ => [column]
  | Cond.and left right => left.names ++ right.names

/-- The truth of a condition on a row; a comparison with a column the row has not is
not true. -/
def Cond.holds : Cond → MempoolTxDetail → Bool
  | Cond.eq column value, r => decide (r.column column = some value)
  | Cond.ne column value, r =>
    match r.column column with
    | some x => decide (x ≠ value)
    | none => false
  | Cond.and left right, r => left.holds r && right.holds r

/-- The error of the database for a statement that names a column its table has not
(SQLSTATE 42703, undefined column). -/
def undefinedColumn : DbError :=
  DbError.Store 42703

/-- The finisher `Find(&dest)` with a slice destination, for a statement that names the
given columns: the database rejects the statement when the table lacks one of them,
whatever its rows, and answers with the rows of the query otherwise. -/
def FindNamed {α : Type} (names : List String) (rows : List α) : Found (List α) :=
  if names.all (fun c => c ∈ columns) then Find rows
  else { Dest := [], Error := some undefinedColumn, RowsAffected := 0 }

/-- The clause `Group(names)`: one group per distinct tuple of values of the named
columns, holding the rows with that tuple. -/
def Group (names : List String) (rows : List MempoolTxDetail) :
    List (List MempoolTxDetail) :=
  ((rows.map (fun r => names.map r.column)).dedup).map
    (fun k => rows.filter (fun r => names.map r.column = k))

/-- The aggregate `max(created_at)` over the rows of a group. -/
def maxCreatedAt : List MempoolTxDetail → Int
  | [] => 0
  | r :: rs => rs.foldl (fun t x => max t x.CreatedAt) r.CreatedAt

/-- The clause `Select("max(created_at), asset_id, chain_id")` on one group, read into
`LatestTimeMempoolDetails` (the aggregate column is named `max`; a column without
value leaves its field at zero). -/
def Select (group : List MempoolTxDetail) : List LatestTimeMempoolDetails :=
  match group with
  | [] => []
  | r :: _ =>
    [{ Max := maxCreatedAt group, AssetId := (r.column "asset_id").getD 0,
       ChainId := (r.column "chain_id").getD 0 }]

/-- The method `GetLatestMempoolDetail` (mempoolDetailModel.go, lines 110-122). -/
def GetLatestMempoolDetail (m : List MempoolTxDetail) (accountIndex assetId assetType : Int) :
    Option MempoolTxDetail × Option DbError :=
  let dbTx :=
    FindOne (Limit 1 (Order created_at_desc_id_desc
      (Where (fun r => r.AccountIndex = accountIndex ∧ r.AssetId = assetId ∧
          r.AssetType = assetType) (Table m))))
  match dbTx.Error with
  | some e => (none, some e)
  | none =>
    if dbTx.RowsAffected = 0 then
      (none, some DbError.ErrNotFound)
    else
      (dbTx.Dest, none)

/-- The method `GetAccountAssetsMempoolDetails` (mempoolDetailModel.go, lines 130-142). -/
def GetAccountAssetsMempoolDetails (m : List MempoolTxDetail) (accountIndex assetType : Int) :
    List MempoolTxDetail × Option DbError :=
  let cond :=
    Cond.and (Cond.eq "account_index" accountIndex)
      (Cond.and (Cond.eq "asset_type" assetType) (Cond.ne "chain_id" (-1)))
  let dbTx :=
    FindNamed (cond.names ++ ["created_at", "id"])
      (Order created_at_id (Where cond.holds (Table m)))
  match dbTx.Error with
  | some e => ([], some e)
  | none =>
    if dbTx.RowsAffected = 0 then
      ([], some DbError.ErrNotFound)
    else
      (dbTx.Dest, none)

/-- The method `GetAccountAssetMempoolDetails` (mempoolDetailModel.go, lines 150-167).
`L2TxChainId` is the constant `commonTx.L2TxChainId`, declared outside the files at
hand and taken as a parameter. -/
def GetAccountAssetMempoolDetails (L2TxChainId : Int) (m : List MempoolTxDetail)
    (accountIndex assetId assetType chainId : Int) :
    List MempoolTxDetail × Option DbError :=
  let dbTx :=
    if chainId = L2TxChainId then
      let cond :=
        Cond.and (Cond.eq "account_index" accountIndex)
          (Cond.and (Cond.eq "asset_id" assetId) (Cond.eq "asset_type" assetType))
      FindNamed (cond.names ++ ["created_at", "id"])
        (Order created_at_id (Where cond.holds (Table m)))
    else
      let cond :=
        Cond.and (Cond.eq "account_index" accountIndex)
          (Cond.and (Cond.eq "asset_id" assetId)
            (Cond.and (Cond.eq "asset_type" assetType) (Cond.eq "chain_id" chainId)))
      FindNamed (cond.names ++ ["created_at", "id"])
        (Order created_at_id (Where cond.holds (Table m)))
  match dbTx.Error with
  | some e => ([], some e)
  | none =>
    if dbTx.RowsAffected = 0 then
      ([], some DbError.ErrNotFound)
    else
      (dbTx.Dest, none)

/-- The method `GetLatestMempoolDetailUnscopedGroupByAssetIdAndChainId`
(mempoolDetailModel.go, lines 175-186). -/
def GetLatestMempoolDetailUnscopedGroupByAssetIdAndChainId (m : List MempoolTxDetail)
    (accountIndex assetType : Int) : List LatestTimeMempoolDetails × Option DbError :=
  let cond := Cond.and (Cond.eq "account_index" accountIndex) (Cond.eq "asset_type" assetType)
  let dbTx :=
    FindNamed (cond.names ++ ["asset_id", "chain_id"] ++ ["created_at", "asset_id", "chain_id"])
      ((Group ["asset_id", "chain_id"] (Where cond.holds (Unscoped m))).flatMap Select)
  match dbTx.Error with
  | some e => ([], some e)
  | none =>
    if dbTx.RowsAffected = 0 then
      ([], some DbError.ErrNotFound)
    else
      (dbTx.Dest, none)

/-! ### The ledger of the scenario of §8 and rows used in examples -/

/-- The first append of the scenario of §8: account 5, asset 2, assetType 0, at time
10, delta +10. -/
def detail1 : MempoolTxDetail :=
  { ID := 1, CreatedAt := 10, DeletedAt := none, TxId := 1, AssetId := 2, AssetType := 0,
    AccountIndex := 5, AccountName := "alice", Balance := "100", BalanceDelta := "10" }

/-- The second append of the scenario of §8: at time 20, delta -3. -/
def detail2 : MempoolTxDetail :=
  { ID := 2, CreatedAt := 20, DeletedAt := none, TxId := 2, AssetId := 2, AssetType := 0,
    AccountIndex := 5, AccountName := "alice", Balance := "110", BalanceDelta := "-3" }

/-- The third append of the scenario of §8: at time 30, delta +1. -/
def detail3 : MempoolTxDetail :=
  { ID := 3, CreatedAt := 30, DeletedAt := none, TxId := 3, AssetId := 2, AssetType := 0,
    AccountIndex := 5, AccountName := "alice", Balance := "107", BalanceDelta := "1" }

/-- A row created at time 30 like `detail3`, with the larger id 4. -/
def detail4 : MempoolTxDetail :=
  { ID := 4, CreatedAt := 30, DeletedAt := none, TxId := 4, AssetId := 2, AssetType := 0,
    AccountIndex := 5, AccountName := "alice", Balance := "108", BalanceDelta := "7" }

/-- A row created at time 40 and soft-deleted at time 50. -/
def deleted5 : MempoolTxDetail :=
  { ID := 5, CreatedAt := 40, DeletedAt := some 50, TxId := 5, AssetId := 2, AssetType := 0,
    AccountIndex := 5, AccountName := "alice", Balance := "115", BalanceDelta := "-9" }

end mempool

/-! ## Ingestion: `CreateMonitorsInfo` -/

namespace gorm

/-- A transaction that reports an error leaves the contents as they were. -/
theorem Transaction_fst_of_snd_ne_none (d : Driver) (db : Store)
    (fc : Store → Store × Option DbError) (h : (Transaction d db fc).2 ≠ none) :
    (Transaction d db fc).1 = db := by
  unfold Transaction at h ⊢
  cases hb : d.Begin db with
  | some e => simp
  | none =>
    rcases hfc : fc db with ⟨tx, _ | e⟩
    · cases hc : d.Commit tx with
      | some e => simp [hc]
      | none => simp [hb, hfc, hc] at h
    · simp

/-- A transaction whose closure returns an error reports an error. -/
theorem Transaction_snd_ne_none_of_fc (d : Driver) (db : Store)
    (fc : Store → Store × Option DbError) (h : (fc db).2 ≠ none) :
    (Transaction d db fc).2 ≠ none := by
  unfold Transaction
  cases hb : d.Begin db with
  | some e => simp
  | none =>
    rcases hfc : fc db with ⟨tx, _ | e⟩
    · simp [hfc] at h
    · simp

/-- A transaction reports success exactly when `Begin` is granted, the closure returns
no error and `Commit` is granted; the contents are then those the closure left. -/
theorem Transaction_snd_eq_none_iff (d : Driver) (db : Store)
    (fc : Store → Store × Option DbError) :
    (Transaction d db fc).2 = none ↔
      d.Begin db = none ∧ (fc db).2 = none ∧ d.Commit (fc db).1 = none := by
  unfold Transaction
  cases hb : d.Begin db with
  | some e => simp
  | none =>
    rcases hfc : fc db with ⟨tx, _ | e⟩
    · cases hc : d.Commit tx with
      | some e => simp [hc]
      | none => simp [hc]
    · simp

end gorm

namespace l1BlockMonitor

open gorm

/-- The closure of `CreateMonitorsInfo` returns no error exactly when none of its three
insert steps fails. -/
theorem fc_snd_eq_none_iff (d : Driver) (blockInfo : L1BlockMonitor)
    (txEventMonitors : List L2TxEventMonitor)
    (blockEventMonitors : List L2BlockEventMonitor) (tx : Store) :
    (CreateMonitorsInfo.fc d blockInfo txEventMonitors blockEventMonitors tx).2 = none ↔
      ¬ blockInsertFails d tx blockInfo ∧
      ¬ txEventInsertFails d tx blockInfo txEventMonitors ∧
      ¬ blockEventInsertFails d tx blockInfo txEventMonitors blockEventMonitors := by
  unfold CreateMonitorsInfo.fc
  simp only [blockInsertFails, txEventInsertFails, blockEventInsertFails]
  cases h1 : (Create d tx blockInfo).Error with
  | some e => simp
  | none =>
    by_cases h2 : (Create d tx blockInfo).RowsAffected = 0
    · simp [h2]
    · simp only [h2, if_false]
      cases h3 : (CreateInBatches d (Create d tx blockInfo).store
          InsertInto.l2_tx_event_monitor txEventMonitors).Error with
      | some e => simp
      | none =>
        by_cases h4 : (CreateInBatches d (Create d tx blockInfo).store
            InsertInto.l2_tx_event_monitor txEventMonitors).RowsAffected =
              (txEventMonitors.length : Int)
        · simp only [h4, ne_eq, not_true_eq_false, if_false]
          cases h5 : (CreateInBatches d
              (CreateInBatches d (Create d tx blockInfo).store
                InsertInto.l2_tx_event_monitor txEventMonitors).store
              InsertInto.l2_block_event_monitor blockEventMonitors).Error with
          | some e => simp
          | none =>
            by_cases h6 : (CreateInBatches d
                (CreateInBatches d (Create d tx blockInfo).store
                  InsertInto.l2_tx_event_monitor txEventMonitors).store
                InsertInto.l2_block_event_monitor blockEventMonitors).RowsAffected =
                  (blockEventMonitors.length : Int)
            · simp [h6]
            · simp [h6]
        · simp [h4]

/-- C1. Ingestion atomicity of `CreateMonitorsInfo`: whatever the store, the block
record, the tx events and the block events, and however the database behaves, if the
block insert, the tx-event insert or the block-event insert fails (the store reports
an error, or the row-count check after the insert fails), then the call returns an
error and the store (its block-record, tx-event and block-event tables) is exactly
what it was before the call. -/
theorem CreateMonitorsInfo_atomic (d : Driver) (m : Store) (blockInfo : L1BlockMonitor)
    (txEventMonitors : List L2TxEventMonitor)
    (blockEventMonitors : List L2BlockEventMonitor)
    (h : blockInsertFails d m blockInfo ∨
      txEventInsertFails d m blockInfo txEventMonitors ∨
      blockEventInsertFails d m blockInfo txEventMonitors blockEventMonitors) :
    (CreateMonitorsInfo d m blockInfo txEventMonitors blockEventMonitors).2 ≠ none ∧
    (CreateMonitorsInfo d m blockInfo txEventMonitors blockEventMonitors).1 = m := by
  have herr : (CreateMonitorsInfo d m blockInfo txEventMonitors blockEventMonitors).2 ≠
      none := by
    apply Transaction_snd_ne_none_of_fc
    intro hnone
    rw [fc_snd_eq_none_iff] at hnone
    tauto
  exact ⟨herr, Transaction_fst_of_snd_ne_none _ _ _ herr⟩


/-- Witness of C1 on the scenario of §8: height 101 is ingested into the store that
holds height 100 while the block-event insert is forced to fail; the call returns an
error and the store is the one that holds height 100 only: the block record of
height 101 is not in it and it has no tx event. -/
theorem CreateMonitorsInfo_atomic_witness :
    (blockInsertFails (faultyDriver failBlockEvents) store100 block101 ∨
      txEventInsertFails (faultyDriver failBlockEvents) store100 block101
        [txEvent101a, txEvent101b] ∨
      blockEventInsertFails (faultyDriver failBlockEvents) store100 block101
        [txEvent101a, txEvent101b] [blockEvent100]) ∧
    ((CreateMonitorsInfo (faultyDriver failBlockEvents) store100 block101
        [txEvent101a, txEvent101b] [blockEvent100]).2 ≠ none ∧
      (CreateMonitorsInfo (faultyDriver failBlockEvents) store100 block101
        [txEvent101a, txEvent101b] [blockEvent100]).1 = store100) ∧
    block101 ∉ (CreateMonitorsInfo (faultyDriver failBlockEvents) store100 block101
      [txEvent101a, txEvent101b] [blockEvent100]).1.l1_block_monitor ∧
    (CreateMonitorsInfo (faultyDriver failBlockEvents) store100 block101
      [txEvent101a, txEvent101b] [blockEvent100]).1.l2_tx_event_monitor = [] :=
  ⟨by decide,
    CreateMonitorsInfo_atomic (faultyDriver failBlockEvents) store100 block101
      [txEvent101a, txEvent101b] [blockEvent100] (by decide),
    by decide, by decide⟩

/-- C2, the claim as stated fails: the store reports 2 affected rows for the block
record, whose input length is 1, and `CreateMonitorsInfo` neither aborts nor returns
an error: the transaction commits. -/
theorem CreateMonitorsInfo_block_count_two_commits :
    (Create reportsTwo emptyStore block100).RowsAffected ≠ 1 ∧
    CreateMonitorsInfo reportsTwo emptyStore block100 [] [] =
      ({ l1_block_monitor := [block100], l2_tx_event_monitor := [],
         l2_block_event_monitor := [] }, none) := by
  decide

/-- C2 as amended. Row-count check of `CreateMonitorsInfo`, for every database, store
and input: (1) if the store reports 0 affected rows for the block record, or a number
of affected rows for the tx events (for the block events) that differs from the
length of that sequence, the call returns an error and the store is what it was
before the call; (2) the call returns success only when the count reported for the
block record is not 0 and the counts reported for the tx events and for the block
events equal the lengths of those sequences; (3) an empty tx-event and block-event
sequence passes its check with 0 affected rows: once the block record is inserted
without error with a non-zero count and the commit is granted, the call succeeds. -/
theorem CreateMonitorsInfo_row_count_check (d : Driver) (m : Store)
    (blockInfo : L1BlockMonitor) (txEventMonitors : List L2TxEventMonitor)
    (blockEventMonitors : List L2BlockEventMonitor) :
    (((Create d m blockInfo).RowsAffected = 0 ∨
        (CreateInBatches d (Create d m blockInfo).store InsertInto.l2_tx_event_monitor
          txEventMonitors).RowsAffected ≠ (txEventMonitors.length : Int) ∨
        (CreateInBatches d
          (CreateInBatches d (Create d m blockInfo).store InsertInto.l2_tx_event_monitor
            txEventMonitors).store
          InsertInto.l2_block_event_monitor blockEventMonitors).RowsAffected ≠
            (blockEventMonitors.length : Int)) →
      (CreateMonitorsInfo d m blockInfo txEventMonitors blockEventMonitors).2 ≠ none ∧
      (CreateMonitorsInfo d m blockInfo txEventMonitors blockEventMonitors).1 = m) ∧
    ((CreateMonitorsInfo d m blockInfo txEventMonitors blockEventMonitors).2 = none →
      (Create d m blockInfo).RowsAffected ≠ 0 ∧
      (CreateInBatches d (Create d m blockInfo).store InsertInto.l2_tx_event_monitor
        txEventMonitors).RowsAffected = (txEventMonitors.length : Int) ∧
      (CreateInBatches d
        (CreateInBatches d (Create d m blockInfo).store InsertInto.l2_tx_event_monitor
          txEventMonitors).store
        InsertInto.l2_block_event_monitor blockEventMonitors).RowsAffected =
          (blockEventMonitors.length : Int)) ∧
    (d.Begin m = none → (Create d m blockInfo).Error = none →
      (Create d m blockInfo).RowsAffected ≠ 0 →
      d.Commit (Create d m blockInfo).store = none →
      CreateMonitorsInfo d m blockInfo [] [] = ((Create d m blockInfo).store, none)) := by
  refine ⟨?_, ?_, ?_⟩
  · intro h
    have herr : (CreateMonitorsInfo d m blockInfo txEventMonitors blockEventMonitors).2 ≠
        none := by
      apply Transaction_snd_ne_none_of_fc
      intro hnone
      rw [fc_snd_eq_none_iff] at hnone
      simp only [blockInsertFails, txEventInsertFails, blockEventInsertFails, not_or,
        ne_eq, not_not] at hnone
      rcases h with h | h | h
      · exact hnone.1.2 h
      · exact h hnone.2.1.2
      · exact h hnone.2.2.2
    exact ⟨herr, Transaction_fst_of_snd_ne_none _ _ _ herr⟩
  · intro h
    have h2 := ((Transaction_snd_eq_none_iff _ _ _).1 h).2.1
    rw [fc_snd_eq_none_iff] at h2
    simp only [blockInsertFails, txEventInsertFails, blockEventInsertFails, not_or,
      ne_eq, not_not] at h2
    exact ⟨h2.1.2, h2.2.1.2, h2.2.2.2⟩
  · intro hb he hr hc
    simp [CreateMonitorsInfo, Transaction, CreateMonitorsInfo.fc, CreateInBatches, hb, he,
      hr, hc]

/-- Witness of C2 as amended: a database that keeps one of the two tx events of height
101 and reports 1 makes the call fail and leaves the store at height 100; the
ingestion of height 100 with no tx event and no block event succeeds with 0
affected rows for both. -/
theorem CreateMonitorsInfo_row_count_check_witness :
    ((CreateMonitorsInfo keepsFirstTxEvent store100 block101 [txEvent101a, txEvent101b]
        []).2 ≠ none ∧
      (CreateMonitorsInfo keepsFirstTxEvent store100 block101 [txEvent101a, txEvent101b]
        []).1 = store100) ∧
    CreateMonitorsInfo sqlDriver emptyStore block100 [] [] =
      ((Create sqlDriver emptyStore block100).store, none) :=
  ⟨(CreateMonitorsInfo_row_count_check keepsFirstTxEvent store100 block101
      [txEvent101a, txEvent101b] []).1 (by decide),
    (CreateMonitorsInfo_row_count_check sqlDriver emptyStore block100 [] []).2.2
      (by decide) (by decide) (by decide) (by decide)⟩

end l1BlockMonitor

/-! ## The cursor: `GetLatestHandledBlockByChainId` -/

namespace l1BlockMonitor

open gorm

/-- A `CreateMonitorsInfo` call that succeeds on a database whose only defect is the
failing of chosen statements has appended its rows to the three tables. -/
theorem CreateMonitorsInfo_faultyDriver_success (fault : InsertInto → Option DbError)
    (m m' : Store) (blockInfo : L1BlockMonitor) (txEventMonitors : List L2TxEventMonitor)
    (blockEventMonitors : List L2BlockEventMonitor)
    (h : CreateMonitorsInfo (faultyDriver fault) m blockInfo txEventMonitors
      blockEventMonitors = (m', none)) :
    m' = { l1_block_monitor := m.l1_block_monitor ++ [blockInfo]
           l2_tx_event_monitor := m.l2_tx_event_monitor ++ txEventMonitors
           l2_block_event_monitor := m.l2_block_event_monitor ++ blockEventMonitors } := by
  simp only [CreateMonitorsInfo, Transaction, faultyDriver, CreateMonitorsInfo.fc, Create] at h
  cases h1 : fault (InsertInto.l1_block_monitor [blockInfo]) with
  | some e => simp [h1] at h
  | none =>
    simp only [h1, sqlExec] at h
    cases txEventMonitors with
    | nil =>
      cases blockEventMonitors with
      | nil => simp [CreateInBatches] at h; simp [← h]
      | cons b bs =>
        cases h3 : fault (InsertInto.l2_block_event_monitor (b :: bs)) with
        | some e => simp [CreateInBatches, h3] at h
        | none => simp [CreateInBatches, h3, sqlExec] at h; simp [← h]
    | cons t ts =>
      cases h2 : fault (InsertInto.l2_tx_event_monitor (t :: ts)) with
      | some e => simp [CreateInBatches, h2] at h
      | none =>
        cases blockEventMonitors with
        | nil => simp [CreateInBatches, h2, sqlExec] at h; simp [← h]
        | cons b bs =>
          cases h3 : fault (InsertInto.l2_block_event_monitor (b :: bs)) with
          | some e => simp [CreateInBatches, h2, h3, sqlExec] at h
          | none => simp [CreateInBatches, h2, h3, sqlExec] at h; simp [← h]

/-- Successful sequential ingestions append their block records, in order, to the
block-record table. -/
theorem ingest_l1_block_monitor (calls : List Ingestion) (m m' : Store)
    (h : ingest m calls = some m') :
    m'.l1_block_monitor = m.l1_block_monitor ++ calls.map (fun c => c.blockInfo) := by
  induction calls generalizing m with
  | nil => simp [ingest] at h; simp [h]
  | cons c cs ih =>
    simp only [ingest] at h
    rcases hc : CreateMonitorsInfo (faultyDriver c.fault) m c.blockInfo c.txEventMonitors
        c.blockEventMonitors with ⟨m1, _ | e⟩
    · rw [hc] at h
      have h1 := CreateMonitorsInfo_faultyDriver_success _ _ _ _ _ _ hc
      have h2 := ih m1 h
      rw [h2, h1]
      simp
    · rw [hc] at h
      simp at h

/-- The rows the cursor query ranges over: the block records of the chain that are not
soft-deleted. -/
theorem mem_cursor_query (m : Store) (chainId : Nat) (r : L1BlockMonitor) :
    r ∈ Order l1_block_height_desc (Where (fun r => r.ChainId = chainId) (Table m)) ↔
      r ∈ Table m ∧ r.ChainId = chainId := by
  simp [Order, Where, List.mem_insertionSort, List.mem_filter]

/-- For every store with a block record of the chain that is not soft-deleted, the
cursor succeeds and returns such a record, and no such record of the chain is
higher. -/
theorem GetLatestHandledBlockByChainId_max (m : Store) (chainId : Nat)
    (h : ∃ b ∈ Table m, b.ChainId = chainId) :
    ∃ x, GetLatestHandledBlockByChainId m chainId = (some x, none) ∧
      x ∈ Table m ∧ x.ChainId = chainId ∧
      ∀ r ∈ Table m, r.ChainId = chainId → r.L1BlockHeight ≤ x.L1BlockHeight := by
  obtain ⟨b, hb, hc⟩ := h
  have hmem := mem_cursor_query m chainId
  have hsorted : List.Sorted l1_block_height_desc (Order l1_block_height_desc
      (Where (fun r => r.ChainId = chainId) (Table m))) :=
    List.sorted_insertionSort _ _
  unfold GetLatestHandledBlockByChainId
  cases hS : Order l1_block_height_desc
      (Where (fun r => r.ChainId = chainId) (Table m)) with
  | nil =>
    have := (hmem b).2 ⟨hb, hc⟩
    rw [hS] at this
    simp at this
  | cons x xs =>
    rw [hS] at hmem hsorted
    have hx := (hmem x).1 (List.mem_cons_self _ _)
    refine ⟨x, by simp [FindOne], hx.1, hx.2, ?_⟩
    intro r hr hrc
    rcases List.mem_cons.1 ((hmem r).2 ⟨hr, hrc⟩) with h1 | h1
    · rw [h1]
    · exact List.rel_of_sorted_cons hsorted r h1

/-- The cursor returns the record of the chain that is not soft-deleted and strictly
higher than every other such record of the chain. -/
theorem GetLatestHandledBlockByChainId_eq_of_max (m : Store) (chainId : Nat)
    (b : L1BlockMonitor) (hb : b ∈ Table m) (hc : b.ChainId = chainId)
    (hmax : ∀ r ∈ Table m, r.ChainId = chainId → r ≠ b →
      r.L1BlockHeight < b.L1BlockHeight) :
    GetLatestHandledBlockByChainId m chainId = (some b, none) := by
  obtain ⟨x, hx, hxm, hxc, hle⟩ := GetLatestHandledBlockByChainId_max m chainId ⟨b, hb, hc⟩
  by_cases hxb : x = b
  · rw [hx, hxb]
  · have h1 := hmax x hxm hxc hxb
    have h2 := hle b hb hc
    omega

/-- In a strictly increasing run of heights every record but the last is strictly
below the last. -/
theorem lt_getLast_of_chain (bs : List L1BlockMonitor) (hne : bs ≠ [])
    (hinc : (bs.map (fun b => b.L1BlockHeight)).Chain' (· < ·)) :
    ∀ r ∈ bs, r ≠ bs.getLast hne → r.L1BlockHeight < (bs.getLast hne).L1BlockHeight := by
  intro r hr hrne
  have hpw : (bs.map (fun b => b.L1BlockHeight)).Pairwise (· < ·) :=
    List.chain'_iff_pairwise.1 hinc
  rw [List.pairwise_map] at hpw
  have hsplit := List.dropLast_append_getLast hne
  rw [← hsplit] at hpw hr
  rw [List.pairwise_append] at hpw
  rcases List.mem_append.1 hr with h1 | h1
  · exact hpw.2.2 r h1 _ (List.mem_singleton_self _)
  · exact absurd (List.mem_singleton.1 h1) hrne

/-- The table after `CreateMonitorsInfo`: the block record is appended when the call
succeeds, nothing changes when it fails. -/
theorem CreateMonitorsInfo_faultyDriver (fault : InsertInto → Option DbError) (m : Store)
    (blockInfo : L1BlockMonitor) (txEventMonitors : List L2TxEventMonitor)
    (blockEventMonitors : List L2BlockEventMonitor) :
    (CreateMonitorsInfo (faultyDriver fault) m blockInfo txEventMonitors
        blockEventMonitors).1.l1_block_monitor =
      m.l1_block_monitor ++
        (if (CreateMonitorsInfo (faultyDriver fault) m blockInfo txEventMonitors
          blockEventMonitors).2 = none then [blockInfo] else []) := by
  rcases hr : CreateMonitorsInfo (faultyDriver fault) m blockInfo txEventMonitors
      blockEventMonitors with ⟨m', _ | e⟩
  · have := CreateMonitorsInfo_faultyDriver_success _ _ _ _ _ _ hr
    simp [this]
  · have hne : (CreateMonitorsInfo (faultyDriver fault) m blockInfo txEventMonitors
        blockEventMonitors).2 ≠ none := by
      rw [hr]; simp
    have := Transaction_fst_of_snd_ne_none (faultyDriver fault) m
      (CreateMonitorsInfo.fc (faultyDriver fault) blockInfo txEventMonitors
        blockEventMonitors) hne
    have h1 : (CreateMonitorsInfo (faultyDriver fault) m blockInfo txEventMonitors
        blockEventMonitors).1 = m := this
    rw [hr] at h1
    simp at h1
    simp [h1]

/-- Sequential ingestions, failed ones included, append to the block-record table the
records of the calls that succeeded, in call order, and nothing else. -/
theorem ingestAll_l1_block_monitor (calls : List Ingestion) (m : Store) :
    (ingestAll m calls).1.l1_block_monitor =
      m.l1_block_monitor ++ (ingestAll m calls).2 := by
  induction calls generalizing m with
  | nil => simp [ingestAll]
  | cons c cs ih =>
    have h := CreateMonitorsInfo_faultyDriver c.fault m c.blockInfo c.txEventMonitors
      c.blockEventMonitors
    simp only [ingestAll]
    rcases hc : CreateMonitorsInfo (faultyDriver c.fault) m c.blockInfo c.txEventMonitors
        c.blockEventMonitors with ⟨m1, _ | e⟩
    · rw [hc] at h
      simp only [if_true] at h
      simp only [ih m1, h]
      simp
    · rw [hc] at h
      simp only [reduceCtorEq, if_false, List.append_nil] at h
      simp only [ih m1, h]

/-- C3, the claim as stated fails for a block record handed over with `DeletedAt` set:
from the empty store, chain 1 is ingested at height 100 and then at height 101, both
calls succeeding and the heights increasing, the second record soft-deleted from the
start; the record is in the table, yet `GetLatestHandledBlockByChainId(1)` returns
the record of height 100, not the one of height 101. -/
theorem GetLatestHandledBlockByChainId_skips_soft_deleted :
    (∃ m, ingest emptyStore [ingestion100, ingestion101Deleted] = some m ∧
      block101Deleted ∈ m.l1_block_monitor ∧
      GetLatestHandledBlockByChainId m 1 = (some block100, none)) ∧
    ingestion101Deleted.blockInfo.ChainId = 1 ∧
    ingestion100.blockInfo.L1BlockHeight < ingestion101Deleted.blockInfo.L1BlockHeight ∧
    block100.L1BlockHeight = 100 := by
  refine ⟨⟨_, rfl, ?_, ?_⟩, ?_, ?_, ?_⟩ <;> decide

/-- C3 as amended. Cursor correctness, for every chain `C`, every store `m` and every
sequence of `CreateMonitorsInfo` calls, for any chains, failed calls included, with
`m'` the store the sequence leaves. (1) Whenever `m'` holds a block record of `C`
that is not soft-deleted, `GetLatestHandledBlockByChainId(C)` succeeds and returns
such a record, and no such record of `C` is higher: it is the row with the maximum
`l1_block_height` among the rows of `chain_id = C` that are not soft-deleted.
(2) If `m` holds no block record for `C`, and the calls for `C` that returned success
are at least one, none with a soft-deleted record, at strictly increasing heights
`h1 < ... < hN` in call order, then `GetLatestHandledBlockByChainId(C)` returns the
block record of the last of them, the one of height `hN`. -/
theorem GetLatestHandledBlockByChainId_after_ingest (C : Nat) (m : Store)
    (calls : List Ingestion) :
    ((∃ b ∈ Table (ingestAll m calls).1, b.ChainId = C) →
      ∃ x, GetLatestHandledBlockByChainId (ingestAll m calls).1 C = (some x, none) ∧
        x ∈ Table (ingestAll m calls).1 ∧ x.ChainId = C ∧
        ∀ r ∈ Table (ingestAll m calls).1, r.ChainId = C →
          r.L1BlockHeight ≤ x.L1BlockHeight) ∧
    (∀ hne : (ingestAll m calls).2.filter (fun b => b.ChainId = C) ≠ [],
      (∀ b ∈ m.l1_block_monitor, b.ChainId ≠ C) →
      (∀ b ∈ (ingestAll m calls).2.filter (fun b => b.ChainId = C), b.DeletedAt = none) →
      (((ingestAll m calls).2.filter (fun b => b.ChainId = C)).map
        (fun b => b.L1BlockHeight)).Chain' (· < ·) →
      GetLatestHandledBlockByChainId (ingestAll m calls).1 C =
        (some (((ingestAll m calls).2.filter (fun b => b.ChainId = C)).getLast hne), none)) := by
  refine ⟨GetLatestHandledBlockByChainId_max _ C, ?_⟩
  intro hne hm hlive hinc
  have htab := ingestAll_l1_block_monitor calls m
  have hlast := List.getLast_mem hne
  have hlast' := hlast
  simp only [List.mem_filter, decide_eq_true_eq] at hlast'
  apply GetLatestHandledBlockByChainId_eq_of_max
  · simp only [Table, List.mem_filter, decide_eq_true_eq, htab, List.mem_append]
    exact ⟨Or.inr hlast'.1, hlive _ hlast⟩
  · exact hlast'.2
  · intro r hr hrC hrne
    simp only [Table, List.mem_filter, decide_eq_true_eq, htab, List.mem_append] at hr
    rcases hr.1 with h1 | h1
    · exact absurd hrC (hm r h1)
    · apply lt_getLast_of_chain _ hne hinc r _ hrne
      simp only [List.mem_filter, decide_eq_true_eq]
      exact ⟨h1, hrC⟩

/-- Witness of C3 as amended. On the scenario of §8, chain 1, height 100 with no tx
event and one block event gives cursor 100, then height 101 with two tx events and
no block event gives cursor 101. With calls of chain 2 in between and after, at
heights 500 and 7, and a failed call of chain 1, the cursor of chain 1 is still the
record of height 101, which is neither the last row of the table nor its highest. -/
theorem GetLatestHandledBlockByChainId_after_ingest_witness :
    GetLatestHandledBlockByChainId (ingestAll emptyStore [ingestion100]).1 1 =
      (some block100, none) ∧
    GetLatestHandledBlockByChainId (ingestAll emptyStore [ingestion100, ingestion101]).1 1 =
      (some block101, none) ∧
    (ingestAll emptyStore interleaved).1.l1_block_monitor =
      [block100, block500, block101, block7] ∧
    GetLatestHandledBlockByChainId (ingestAll emptyStore interleaved).1 1 =
      (some block101, none) ∧
    (∃ x, GetLatestHandledBlockByChainId (ingestAll emptyStore interleaved).1 2 =
        (some x, none) ∧
      x ∈ Table (ingestAll emptyStore interleaved).1 ∧ x.ChainId = 2 ∧
      ∀ r ∈ Table (ingestAll emptyStore interleaved).1, r.ChainId = 2 →
        r.L1BlockHeight ≤ x.L1BlockHeight) ∧
    GetLatestHandledBlockByChainId (ingestAll emptyStore interleaved).1 2 =
      (some block500, none) :=
  ⟨(GetLatestHandledBlockByChainId_after_ingest 1 emptyStore [ingestion100]).2
      (by decide) (by decide) (by decide) (List.chain'_iff_pairwise.2 (by decide)),
    (GetLatestHandledBlockByChainId_after_ingest 1 emptyStore
      [ingestion100, ingestion101]).2 (by decide) (by decide) (by decide)
      (List.chain'_iff_pairwise.2 (by decide)),
    by decide,
    (GetLatestHandledBlockByChainId_after_ingest 1 emptyStore interleaved).2
      (by decide) (by decide) (by decide) (List.chain'_iff_pairwise.2 (by decide)),
    (GetLatestHandledBlockByChainId_after_ingest 2 emptyStore interleaved).1
      ⟨block500, by decide, by decide⟩,
    by decide⟩

end l1BlockMonitor

/-! ## The mempool ledger -/

namespace mempool

open gorm

/-- The rows a three-key query in the default scope ranges over, in the order
`created_at desc, id desc`: the rows of the ledger that are not soft-deleted and
carry the three keys. -/
theorem mem_latest_query (m : List MempoolTxDetail) (accountIndex assetId assetType : Int)
    (r : MempoolTxDetail) :
    r ∈ Order created_at_desc_id_desc
        (Where (fun r => r.AccountIndex = accountIndex ∧ r.AssetId = assetId ∧
          r.AssetType = assetType) (Table m)) ↔
      r ∈ m ∧ r.DeletedAt = none ∧ matchesAsset accountIndex assetId assetType r := by
  simp only [Order, Where, Table, List.mem_insertionSort, List.mem_filter, matchesAsset,
    decide_eq_true_eq]
  tauto

/-- C4, the claim as stated fails on a ledger with a soft-deleted row. With the row of
time 10 and a row of time 40 that is soft-deleted, both for account 5, asset 2,
assetType 0, the call returns the row of time 10, not the matching row with the
latest createdAt; and on the ledger that holds the soft-deleted row alone the call
returns NotFound although a row matches the three keys. -/
theorem GetLatestMempoolDetail_skips_soft_deleted :
    GetLatestMempoolDetail [detail1, deleted5] 5 2 0 = (some detail1, none) ∧
    matchesAsset 5 2 0 deleted5 ∧ detail1.CreatedAt < deleted5.CreatedAt ∧
    GetLatestMempoolDetail [deleted5] 5 2 0 = (none, some DbError.ErrNotFound) := by
  decide

/-- C4 as amended. Recency ordering of `GetLatestMempoolDetail`, for every ledger and
every (accountIndex, assetId, assetType): when at least one row that is not
soft-deleted matches the three keys, the call returns such a row, and it is the
maximum of those rows under the lexicographic order (createdAt, id): every other one
has an earlier createdAt, or the same createdAt and an id that is not larger; the
call returns NotFound exactly when no row that is not soft-deleted matches the three
keys. -/
theorem GetLatestMempoolDetail_recency (m : List MempoolTxDetail)
    (accountIndex assetId assetType : Int) :
    ((∃ r ∈ m, r.DeletedAt = none ∧ matchesAsset accountIndex assetId assetType r) →
      ∃ r, GetLatestMempoolDetail m accountIndex assetId assetType = (some r, none) ∧
        r ∈ m ∧ r.DeletedAt = none ∧ matchesAsset accountIndex assetId assetType r ∧
        ∀ r' ∈ m, r'.DeletedAt = none → matchesAsset accountIndex assetId assetType r' →
          r'.CreatedAt < r.CreatedAt ∨ (r'.CreatedAt = r.CreatedAt ∧ r'.ID ≤ r.ID)) ∧
    (GetLatestMempoolDetail m accountIndex assetId assetType =
        (none, some DbError.ErrNotFound) ↔
      ¬ ∃ r ∈ m, r.DeletedAt = none ∧ matchesAsset accountIndex assetId assetType r) := by
  have hmem := mem_latest_query m accountIndex assetId assetType
  have hsorted : List.Sorted created_at_desc_id_desc (Order created_at_desc_id_desc
      (Where (fun r => r.AccountIndex = accountIndex ∧ r.AssetId = assetId ∧
        r.AssetType = assetType) (Table m))) :=
    List.sorted_insertionSort _ _
  unfold GetLatestMempoolDetail
  cases hS : Order created_at_desc_id_desc
      (Where (fun r => r.AccountIndex = accountIndex ∧ r.AssetId = assetId ∧
        r.AssetType = assetType) (Table m)) with
  | nil =>
    rw [hS] at hmem
    have hnone : ¬ ∃ r ∈ m, r.DeletedAt = none ∧
        matchesAsset accountIndex assetId assetType r := by
      rintro ⟨r, hr, hd, hk⟩
      have := (hmem r).2 ⟨hr, hd, hk⟩
      simp at this
    refine ⟨fun h => absurd h hnone, ?_⟩
    simp only [Limit, FindOne, List.take_nil]
    simp [hnone]
  | cons x xs =>
    rw [hS] at hmem hsorted
    have hx := (hmem x).1 (List.mem_cons_self _ _)
    refine ⟨fun _ => ⟨x, ?_, hx.1, hx.2.1, hx.2.2, ?_⟩, ?_⟩
    · simp [Limit, FindOne]
    · intro r' hr' hd' hk'
      rcases List.mem_cons.1 ((hmem r').2 ⟨hr', hd', hk'⟩) with h | h
      · subst h
        exact Or.inr ⟨rfl, le_refl _⟩
      · exact List.rel_of_sorted_cons hsorted r' h
    · simp only [Limit, FindOne, List.take_succ_cons, List.take_zero]
      constructor
      · intro h
        simp at h
      · intro h
        exact absurd ⟨x, hx.1, hx.2.1, hx.2.2⟩ h

/-- Witness of C4 as amended on the scenario of §8: rows for account 5, asset 2,
assetType 0 at times 10 < 20 < 30 with deltas +10, -3, +1 give the +1 row; and of two
rows created at time 30 the one with the larger id wins. -/
theorem GetLatestMempoolDetail_recency_witness :
    (∃ r, GetLatestMempoolDetail [detail1, detail2, detail3] 5 2 0 = (some r, none) ∧
        r ∈ [detail1, detail2, detail3] ∧ r.DeletedAt = none ∧ matchesAsset 5 2 0 r ∧
        ∀ r' ∈ [detail1, detail2, detail3], r'.DeletedAt = none → matchesAsset 5 2 0 r' →
          r'.CreatedAt < r.CreatedAt ∨ (r'.CreatedAt = r.CreatedAt ∧ r'.ID ≤ r.ID)) ∧
    GetLatestMempoolDetail [detail1, detail2, detail3] 5 2 0 = (some detail3, none) ∧
    detail3.BalanceDelta = "1" ∧
    GetLatestMempoolDetail [detail4, detail1, detail3] 5 2 0 = (some detail4, none) :=
  ⟨(GetLatestMempoolDetail_recency [detail1, detail2, detail3] 5 2 0).1
      ⟨detail3, by decide, by decide, by decide⟩,
    by decide, by decide, by decide⟩

end mempool

/-! ## The queries of the ledger that name `chain_id` -/

namespace mempool

open gorm

/-- The table `mempool_detail` has no column `chain_id`. -/
theorem chain_id_not_mem_columns : "chain_id" ∉ columns := by
  decide

/-- For every ledger and every account and assetType, `GetAccountAssetsMempoolDetails`
returns the error of the database for an undefined column and no row: its condition
(line 132) names `chain_id`. -/
theorem GetAccountAssetsMempoolDetails_undefinedColumn (m : List MempoolTxDetail)
    (accountIndex assetType : Int) :
    GetAccountAssetsMempoolDetails m accountIndex assetType =
      ([], some undefinedColumn) := by
  simp [GetAccountAssetsMempoolDetails, FindNamed, Cond.names, columns]

/-- For every ledger and every account and assetType,
`GetLatestMempoolDetailUnscopedGroupByAssetIdAndChainId` returns the error of the
database for an undefined column and no entry: its `Group` and `Select` clauses
(line 177) name `chain_id`. -/
theorem GetLatestMempoolDetailUnscopedGroupByAssetIdAndChainId_undefinedColumn
    (m : List MempoolTxDetail) (accountIndex assetType : Int) :
    GetLatestMempoolDetailUnscopedGroupByAssetIdAndChainId m accountIndex assetType =
      ([], some undefinedColumn) := by
  simp [GetLatestMempoolDetailUnscopedGroupByAssetIdAndChainId, FindNamed, Cond.names,
    columns]

/-- For every ledger and every chain other than the sentinel,
`GetAccountAssetMempoolDetails` returns the error of the database for an undefined
column and no row: the condition of that branch (line 156) names `chain_id`. -/
theorem GetAccountAssetMempoolDetails_chain_undefinedColumn (L2TxChainId : Int)
    (m : List MempoolTxDetail) (accountIndex assetId assetType chainId : Int)
    (h : chainId ≠ L2TxChainId) :
    GetAccountAssetMempoolDetails L2TxChainId m accountIndex assetId assetType chainId =
      ([], some undefinedColumn) := by
  simp [GetAccountAssetMempoolDetails, h, FindNamed, Cond.names, columns]

/-- C7, evaluated where the code departs from the claim. The ledger holds one row, not
soft-deleted, of account 5 and assetType 0: `GetAccountAssetsMempoolDetails(5, 0)`
returns no row and the error of the database for an undefined column, since the
table migrated from `MempoolTxDetail` has no column `chain_id`; on the empty ledger,
where no such row exists, it returns the same error, which is not NotFound. -/
theorem GetAccountAssetsMempoolDetails_rejected :
    (detail1.DeletedAt = none ∧ detail1.AccountIndex = 5 ∧ detail1.AssetType = 0) ∧
    GetAccountAssetsMempoolDetails [detail1] 5 0 = ([], some undefinedColumn) ∧
    GetAccountAssetsMempoolDetails [] 5 0 = ([], some undefinedColumn) ∧
    undefinedColumn ≠ DbError.ErrNotFound ∧
    "chain_id" ∉ columns := by
  decide

/-- C6, evaluated where the code departs from the claim. The ledger holds the three
rows of account 5, asset 2, assetType 0 of the scenario of §8:
`GetLatestMempoolDetailUnscopedGroupByAssetIdAndChainId(5, 0)` returns no entry and
the error of the database for an undefined column, since the table migrated from
`MempoolTxDetail` has no column `chain_id` to group by. -/
theorem GetLatestMempoolDetailUnscopedGroupByAssetIdAndChainId_rejected :
    (∃ r ∈ [detail1, detail2, detail3], r.AccountIndex = 5 ∧ r.AssetType = 0) ∧
    GetLatestMempoolDetailUnscopedGroupByAssetIdAndChainId [detail1, detail2, detail3] 5 0 =
      ([], some undefinedColumn) ∧
    undefinedColumn ≠ DbError.ErrNotFound ∧
    "chain_id" ∉ columns := by
  decide

/-- C5, evaluated where the code departs from the claim (with the sentinel
`L2TxChainId` set to -1; the value plays no part). The ledger holds one row of
account 5, asset 2, assetType 0: `GetAccountAssetMempoolDetails(5, 2, 0, L2TxChainId)`
returns that row, while `GetAccountAssetsMempoolDetails(5, 0)` returns no row and the
error of the database for an undefined column, so its rows of asset 2 are not the
same set. -/
theorem GetAccountAssetMempoolDetails_sentinel_not_equivalent :
    GetAccountAssetMempoolDetails (-1) [detail1] 5 2 0 (-1) = ([detail1], none) ∧
    GetAccountAssetsMempoolDetails [detail1] 5 0 = ([], some undefinedColumn) ∧
    detail1 ∈ (GetAccountAssetMempoolDetails (-1) [detail1] 5 2 0 (-1)).1 ∧
    detail1 ∉ (GetAccountAssetsMempoolDetails [detail1] 5 0).1.filter
      (fun r => r.AssetId = 2) := by
  decide

end mempool

/-! ## Chain scoping of `GetAccountAssetMempoolDetails` -/

namespace mempool

open gorm

/-- What the list methods make of the handle `Find` returns: NotFound for no row, the
rows otherwise. -/
theorem Find_result {α : Type} (rows : List α) :
    (match (Find rows).Error with
      | some e => (([] : List α), some e)
      | none =>
        if (Find rows).RowsAffected = 0 then ([], some DbError.ErrNotFound)
        else ((Find rows).Dest, none)) =
      if rows.isEmpty then ([], some DbError.ErrNotFound) else (rows, none) := by
  cases rows with
  | nil => simp [Find]
  | cons x xs =>
    have h : ((xs.length : Int) + 1 = 0) = False := by
      simp only [eq_iff_iff, iff_false]
      omega
    simp [Find, h]

/-- The condition `account_index = ? and asset_id = ? and asset_type = ?` holds on the
rows that carry the three keys. -/
theorem holds_three_keys (accountIndex assetId assetType : Int) (r : MempoolTxDetail) :
    (Cond.and (Cond.eq "account_index" accountIndex)
      (Cond.and (Cond.eq "asset_id" assetId) (Cond.eq "asset_type" assetType))).holds r =
      decide (r.AccountIndex = accountIndex ∧ r.AssetId = assetId ∧
        r.AssetType = assetType) := by
  simp [Cond.holds, MempoolTxDetail.column]

/-- The method `GetAccountAssetMempoolDetails` called with the sentinel, in closed
form. -/
theorem GetAccountAssetMempoolDetails_sentinel_eq (L2TxChainId : Int)
    (m : List MempoolTxDetail) (accountIndex assetId assetType : Int) :
    GetAccountAssetMempoolDetails L2TxChainId m accountIndex assetId assetType L2TxChainId =
      if (Order created_at_id
          (Where (fun r => r.AccountIndex = accountIndex ∧ r.AssetId = assetId ∧
            r.AssetType = assetType) (Table m))).isEmpty
      then ([], some DbError.ErrNotFound)
      else (Order created_at_id
          (Where (fun r => r.AccountIndex = accountIndex ∧ r.AssetId = assetId ∧
            r.AssetType = assetType) (Table m)), none) := by
  have hcols : ((Cond.and (Cond.eq "account_index" accountIndex)
      (Cond.and (Cond.eq "asset_id" assetId) (Cond.eq "asset_type" assetType))).names ++
        ["created_at", "id"]).all (fun c => c ∈ columns) = true := by
    rfl
  have hwhere : Where (Cond.and (Cond.eq "account_index" accountIndex)
      (Cond.and (Cond.eq "asset_id" assetId) (Cond.eq "asset_type" assetType))).holds
        (Table m) =
      Where (fun r => r.AccountIndex = accountIndex ∧ r.AssetId = assetId ∧
        r.AssetType = assetType) (Table m) := by
    unfold Where
    exact List.filter_congr (fun r _ => holds_three_keys accountIndex assetId assetType r)
  unfold GetAccountAssetMempoolDetails
  simp only [if_true, FindNamed, hcols, hwhere]
  exact Find_result _

/-- The rows the three-key query ranges over. -/
theorem perm_asset_query (m : List MempoolTxDetail)
    (accountIndex assetId assetType : Int) :
    (Order created_at_id
      (Where (fun r => r.AccountIndex = accountIndex ∧ r.AssetId = assetId ∧
        r.AssetType = assetType) (Table m))).Perm
      (m.filter (fun r => r.DeletedAt = none ∧ r.AccountIndex = accountIndex ∧
        r.AssetId = assetId ∧ r.AssetType = assetType)) := by
  refine (List.perm_insertionSort _ _).trans ?_
  simp only [Where, Table, List.filter_filter]
  refine List.Perm.of_eq (List.filter_congr ?_)
  intro r _
  simp only [Bool.decide_and, Bool.and_comm, Bool.and_assoc, Bool.and_left_comm]

/-- A list method that returns NotFound for no row and the rows otherwise: its rows
are the rows of its query, its error is NotFound exactly when the query has no row,
and a nil error comes with a row. -/
theorem found_or_not {α : Type} (Q : List α) :
    (if Q.isEmpty then (([] : List α), some DbError.ErrNotFound) else (Q, none)).1 = Q ∧
    ((if Q.isEmpty then (([] : List α), some DbError.ErrNotFound) else (Q, none)).2 =
        some DbError.ErrNotFound ↔ Q = []) ∧
    ((if Q.isEmpty then (([] : List α), some DbError.ErrNotFound) else (Q, none)).2 =
        none ↔ Q ≠ []) := by
  cases Q with
  | nil => simp
  | cons x xs => simp

/-- A list method over a query `Q` that holds, sorted, the rows of the ledger picked by
`p`: it returns those rows sorted, NotFound exactly when `p` picks no row, no other
error, and never a nil error with an empty sequence. -/
theorem list_method_rows (m Q : List MempoolTxDetail) (p : MempoolTxDetail → Bool)
    (hperm : Q.Perm (m.filter p)) (hsorted : Q.Sorted created_at_id) :
    ((if Q.isEmpty then (([] : List MempoolTxDetail), some DbError.ErrNotFound)
        else (Q, none)).1.Perm (m.filter p)) ∧
    (if Q.isEmpty then (([] : List MempoolTxDetail), some DbError.ErrNotFound)
        else (Q, none)).1.Sorted created_at_id ∧
    ((if Q.isEmpty then (([] : List MempoolTxDetail), some DbError.ErrNotFound)
        else (Q, none)).2 = some DbError.ErrNotFound ↔ ∀ r ∈ m, p r = false) ∧
    ((if Q.isEmpty then (([] : List MempoolTxDetail), some DbError.ErrNotFound)
        else (Q, none)).2 = none ∨
      (if Q.isEmpty then (([] : List MempoolTxDetail), some DbError.ErrNotFound)
        else (Q, none)).2 = some DbError.ErrNotFound) ∧
    ((if Q.isEmpty then (([] : List MempoolTxDetail), some DbError.ErrNotFound)
        else (Q, none)).2 = none →
      (if Q.isEmpty then (([] : List MempoolTxDetail), some DbError.ErrNotFound)
        else (Q, none)).1 ≠ []) := by
  obtain ⟨h1, h2, h3⟩ := found_or_not Q
  have hnil : Q = [] ↔ ∀ r ∈ m, p r = false := by
    constructor
    · intro hQ r hr
      by_contra hp
      have hmem : r ∈ m.filter p := by
        simp only [List.mem_filter]
        exact ⟨hr, by simpa using hp⟩
      have := hperm.mem_iff.2 hmem
      rw [hQ] at this
      simp at this
    · intro hall
      have hf : m.filter p = [] := by
        simp only [List.filter_eq_nil_iff]
        intro r hr
        simp [hall r hr]
      rw [hf] at hperm
      exact List.Perm.eq_nil hperm
  refine ⟨by rw [h1]; exact hperm, by rw [h1]; exact hsorted, h2.trans hnil, ?_, ?_⟩
  · by_cases hQ : Q = []
    · exact Or.inr (h2.2 hQ)
    · exact Or.inl (h3.2 hQ)
  · intro hn
    rw [h1]
    exact h3.1 hn

/-- C11, the claim as stated fails on a ledger with a soft-deleted row (here with the
sentinel `L2TxChainId` set to -1). The row of time 40 carries account 5, asset 2 and
assetType 0 and is soft-deleted: the call with the sentinel returns the row of time
10 alone, and on the ledger that holds the soft-deleted row alone it returns
NotFound although that row matches (accountIndex, assetId, assetType). -/
theorem GetAccountAssetMempoolDetails_skips_soft_deleted :
    matchesAsset 5 2 0 deleted5 ∧
    GetAccountAssetMempoolDetails (-1) [detail1, deleted5] 5 2 0 (-1) = ([detail1], none) ∧
    GetAccountAssetMempoolDetails (-1) [deleted5] 5 2 0 (-1) =
      ([], some DbError.ErrNotFound) := by
  decide

/-- C11 as amended. Chain scoping of `GetAccountAssetMempoolDetails` when chainId
equals the sentinel, for every value of the sentinel `L2TxChainId`, every ledger and
every (accountIndex, assetId, assetType): the result is exactly the rows that are not
soft-deleted and match (accountIndex, assetId, assetType), each as often as the
ledger holds it and with no condition on the chain, sorted ascending by
(createdAt, id); NotFound is returned exactly when no such row exists, no other
error is returned, and a successful call never returns an empty sequence. -/
theorem GetAccountAssetMempoolDetails_sentinel_rows (L2TxChainId : Int)
    (m : List MempoolTxDetail) (accountIndex assetId assetType : Int) :
    ((GetAccountAssetMempoolDetails L2TxChainId m accountIndex assetId assetType
        L2TxChainId).1.Perm
      (m.filter (fun r => r.DeletedAt = none ∧ r.AccountIndex = accountIndex ∧
        r.AssetId = assetId ∧ r.AssetType = assetType))) ∧
    (GetAccountAssetMempoolDetails L2TxChainId m accountIndex assetId assetType
      L2TxChainId).1.Sorted
      (fun a b => a.CreatedAt < b.CreatedAt ∨ (a.CreatedAt = b.CreatedAt ∧ a.ID ≤ b.ID)) ∧
    ((GetAccountAssetMempoolDetails L2TxChainId m accountIndex assetId assetType
        L2TxChainId).2 = some DbError.ErrNotFound ↔
      ∀ r ∈ m, ¬ (r.DeletedAt = none ∧ matchesAsset accountIndex assetId assetType r)) ∧
    ((GetAccountAssetMempoolDetails L2TxChainId m accountIndex assetId assetType
        L2TxChainId).2 = none ∨
      (GetAccountAssetMempoolDetails L2TxChainId m accountIndex assetId assetType
        L2TxChainId).2 = some DbError.ErrNotFound) ∧
    ((GetAccountAssetMempoolDetails L2TxChainId m accountIndex assetId assetType
        L2TxChainId).2 = none →
      (GetAccountAssetMempoolDetails L2TxChainId m accountIndex assetId assetType
        L2TxChainId).1 ≠ []) := by
  rw [GetAccountAssetMempoolDetails_sentinel_eq]
  obtain ⟨h1, h2, h3, h4, h5⟩ := list_method_rows m _ _
    (perm_asset_query m accountIndex assetId assetType)
    (List.sorted_insertionSort created_at_id _)
  refine ⟨h1, h2, ?_, h4, h5⟩
  rw [h3]
  refine forall_congr' (fun r => forall_congr' (fun _ => ?_))
  simp only [matchesAsset, decide_eq_false_iff_not]

/-- Witness of C11 as amended (sentinel -1): from a ledger with three live rows of
account 5, asset 2, assetType 0 and a soft-deleted one, the call with the sentinel
returns the three live rows, earlier rows first, and the successful result is not
empty; for asset 3, which has no row, it returns NotFound. -/
theorem GetAccountAssetMempoolDetails_sentinel_rows_witness :
    GetAccountAssetMempoolDetails (-1) [detail3, detail2, deleted5, detail1] 5 2 0 (-1) =
      ([detail1, detail2, detail3], none) ∧
    (GetAccountAssetMempoolDetails (-1) [detail3, detail2, deleted5, detail1] 5 2 0
      (-1)).1 ≠ [] ∧
    GetAccountAssetMempoolDetails (-1) [detail3, detail2, deleted5, detail1] 5 3 0 (-1) =
      ([], some DbError.ErrNotFound) :=
  ⟨by decide,
    (GetAccountAssetMempoolDetails_sentinel_rows (-1) [detail3, detail2, deleted5, detail1]
      5 2 0).2.2.2.2 (by decide),
    by decide⟩

end mempool

/-! ## The lookups of the cursor store -/

namespace l1BlockMonitor

open gorm

/-- The rows `GetL1BlockMonitorsByChainId` returns, for every store: the block records
of the chain that are not soft-deleted and only those, in the order the table holds
them. -/
theorem GetL1BlockMonitorsByChainId_fst (m : Store) (chainId : Nat) :
    (GetL1BlockMonitorsByChainId m chainId).1 =
      (Table m).filter (fun b => b.ChainId = chainId) := by
  unfold GetL1BlockMonitorsByChainId
  simp only [Found.Order, Where]
  cases hL : (Table m).filter (fun b => b.ChainId = chainId) with
  | nil => simp [Find]
  | cons x xs =>
    have h : ((xs.length : Int) + 1 = 0) = False := by
      simp only [eq_iff_iff, iff_false]
      omega
    simp [Find, h]

/-- C8, evaluated where the code departs from the claim: heights 100, 102 and 101 of
chain 1 are ingested in that order, every call succeeding; `GetL1BlockMonitorsByChainId(1)`
returns the three records of the chain in insertion order 100, 102, 101, a sequence
ordered by `L1BlockHeight` neither upwards nor downwards. -/
theorem GetL1BlockMonitorsByChainId_in_table_order :
    ingest emptyStore outOfOrder = some storeOutOfOrder ∧
    GetL1BlockMonitorsByChainId storeOutOfOrder 1 = ([block100, block102, block101], none) ∧
    (GetL1BlockMonitorsByChainId storeOutOfOrder 1).1.map (fun b => b.L1BlockHeight) =
      [100, 102, 101] ∧
    ¬ (GetL1BlockMonitorsByChainId storeOutOfOrder 1).1.Sorted l1_block_height ∧
    ¬ (GetL1BlockMonitorsByChainId storeOutOfOrder 1).1.Sorted l1_block_height_desc := by
  refine ⟨by decide, by decide, by decide, ?_, ?_⟩
  · rw [GetL1BlockMonitorsByChainId_fst]
    simp [Table, storeOutOfOrder, block100, block101, block102, List.Sorted]
  · rw [GetL1BlockMonitorsByChainId_fst]
    simp [Table, storeOutOfOrder, block100, block101, block102, List.Sorted]

/-- For every store with no block record for the chain, or only soft-deleted ones, the
cursor returns the package's `ErrNotFound`. -/
theorem GetLatestHandledBlockByChainId_absent (m : Store) (chainId : Nat)
    (h : ∀ b ∈ Table m, b.ChainId ≠ chainId) :
    GetLatestHandledBlockByChainId m chainId = (none, some DbError.ErrNotFound) := by
  have hnil : Where (fun b => b.ChainId = chainId) (Table m) = [] := by
    simp only [Where, List.filter_eq_nil_iff, decide_eq_true_eq]
    exact h
  simp [GetLatestHandledBlockByChainId, hnil, Order, FindOne]

/-- For every store with no block record for the pair (chain, height), or only
soft-deleted ones, the exact-height lookup returns gorm's `ErrRecordNotFound`, handed on by the branch for store errors
(line 252): `First` raises it, so the `RowsAffected == 0` branch that returns
`ErrNotFound` (line 256) is never taken. -/
theorem GetL1BlockMonitorsByChainIdAndL1BlockHeight_absent (m : Store) (chainId : Nat)
    (l1BlockHeight : Int)
    (h : ∀ b ∈ Table m, ¬ (b.ChainId = chainId ∧ b.L1BlockHeight = l1BlockHeight)) :
    GetL1BlockMonitorsByChainIdAndL1BlockHeight m chainId l1BlockHeight =
      (none, some DbError.ErrRecordNotFound) := by
  have hnil : Where (fun b => b.ChainId = chainId ∧ b.L1BlockHeight = l1BlockHeight)
      (Table m) = [] := by
    simp only [Where, List.filter_eq_nil_iff, decide_eq_true_eq]
    exact h
  simp only [GetL1BlockMonitorsByChainIdAndL1BlockHeight, hnil, First]

/-- For every store with a block record for the pair (chain, height) that is not
soft-deleted the exact-height lookup succeeds and returns such a record of the store
with that chain and height. -/
theorem GetL1BlockMonitorsByChainIdAndL1BlockHeight_present (m : Store) (chainId : Nat)
    (l1BlockHeight : Int)
    (h : ∃ b ∈ Table m, b.ChainId = chainId ∧ b.L1BlockHeight = l1BlockHeight) :
    ∃ b, GetL1BlockMonitorsByChainIdAndL1BlockHeight m chainId l1BlockHeight =
        (some b, none) ∧
      b ∈ Table m ∧ b.ChainId = chainId ∧ b.L1BlockHeight = l1BlockHeight := by
  obtain ⟨b0, hb0, hp0⟩ := h
  have hmem : b0 ∈ Where (fun b => b.ChainId = chainId ∧ b.L1BlockHeight = l1BlockHeight)
      (Table m) := by
    simp only [Where, List.mem_filter, decide_eq_true_eq]
    exact ⟨hb0, hp0⟩
  cases hL : Where (fun b => b.ChainId = chainId ∧ b.L1BlockHeight = l1BlockHeight)
      (Table m) with
  | nil => rw [hL] at hmem; simp at hmem
  | cons x xs =>
    have hx : x ∈ Where (fun b => b.ChainId = chainId ∧ b.L1BlockHeight = l1BlockHeight)
        (Table m) := by
      rw [hL]; exact List.mem_cons_self _ _
    simp only [Where, List.mem_filter, decide_eq_true_eq] at hx
    refine ⟨x, ?_, hx.1, hx.2.1, hx.2.2⟩
    simp only [GetL1BlockMonitorsByChainIdAndL1BlockHeight, hL, First]
    simp

/-- C9, evaluated where the code departs from the claim: the store holds height 100 of
chain 1 and no record for (1, 101). `GetL1BlockMonitorsByChainIdAndL1BlockHeight(1, 101)`
returns gorm's `ErrRecordNotFound`, which is not the `ErrNotFound` that
`GetLatestHandledBlockByChainId` returns for the unscanned chain 2; for the pair
(1, 100), which has a record, the lookup returns that record. -/
theorem GetL1BlockMonitorsByChainIdAndL1BlockHeight_error_kind :
    GetL1BlockMonitorsByChainIdAndL1BlockHeight store100 1 101 =
      (none, some DbError.ErrRecordNotFound) ∧
    GetLatestHandledBlockByChainId store100 2 = (none, some DbError.ErrNotFound) ∧
    (GetL1BlockMonitorsByChainIdAndL1BlockHeight store100 1 101).2 ≠
      (GetLatestHandledBlockByChainId store100 2).2 ∧
    GetL1BlockMonitorsByChainIdAndL1BlockHeight emptyStore 1 100 =
      (none, some DbError.ErrRecordNotFound) ∧
    GetL1BlockMonitorsByChainIdAndL1BlockHeight store100 1 100 = (some block100, none) := by
  decide

end l1BlockMonitor

/-! ## The reachable states of the cursor store -/

namespace gorm

/-- A transaction that reports success leaves the contents its closure left. -/
theorem Transaction_fst_of_snd_eq_none (d : Driver) (db : Store)
    (fc : Store → Store × Option DbError) (h : (Transaction d db fc).2 = none) :
    (Transaction d db fc).1 = (fc db).1 := by
  unfold Transaction at h ⊢
  cases hb : d.Begin db with
  | some e => simp [hb] at h
  | none =>
    rcases hfc : fc db with ⟨tx, _ | e⟩
    · cases hc : d.Commit tx with
      | some e => simp [hb, hfc, hc] at h
      | none => simp [hc]
    · simp [hb, hfc] at h

/-- The database in working order adds no row but those handed to it. -/
theorem sqlDriver_addsOnlyGiven : sqlDriver.AddsOnlyGiven := by
  intro db stmt b hb
  cases stmt with
  | l1_block_monitor rows =>
    simp only [sqlDriver, sqlExec, List.mem_append] at hb
    exact hb.imp id (fun h => ⟨rows, rfl, h⟩)
  | l2_tx_event_monitor rows => exact Or.inl (by simpa [sqlDriver, sqlExec] using hb)
  | l2_block_event_monitor rows => exact Or.inl (by simpa [sqlDriver, sqlExec] using hb)

/-- The database with failing statements adds no row but those handed to it. -/
theorem faultyDriver_addsOnlyGiven (fault : InsertInto → Option DbError) :
    (faultyDriver fault).AddsOnlyGiven := by
  intro db stmt b hb
  simp only [faultyDriver] at hb
  cases hf : fault stmt with
  | some e =>
    rw [hf] at hb
    exact Or.inl hb
  | none =>
    rw [hf] at hb
    exact sqlDriver_addsOnlyGiven db stmt b hb

/-- An INSERT into another table adds no block record, on a database that adds no row
but those handed to it. -/
theorem CreateInBatches_mem {α : Type} (d : Driver) (hd : d.AddsOnlyGiven) (db : Store)
    (table : List α → InsertInto)
    (htable : ∀ value rows, table value ≠ InsertInto.l1_block_monitor rows)
    (value : List α) (b : L1BlockMonitor)
    (hb : b ∈ (CreateInBatches d db table value).store.l1_block_monitor) :
    b ∈ db.l1_block_monitor := by
  cases value with
  | nil => exact hb
  | cons x xs =>
    rcases hd db (table (x :: xs)) b hb with h | ⟨rows, hrows, _⟩
    · exact h
    · exact absurd hrows (htable _ _)

end gorm

namespace l1BlockMonitor

open gorm

/-- A record the cursor reports is a block record of the store for that chain that is
not soft-deleted. -/
theorem GetLatestHandledBlockByChainId_mem (m : Store) (chainId : Nat) (b : L1BlockMonitor)
    (h : GetLatestHandledBlockByChainId m chainId = (some b, none)) :
    b ∈ m.l1_block_monitor ∧ b.DeletedAt = none ∧ b.ChainId = chainId := by
  unfold GetLatestHandledBlockByChainId at h
  cases hS : Order l1_block_height_desc
      (Where (fun r => r.ChainId = chainId) (Table m)) with
  | nil => simp [hS, FindOne] at h
  | cons x xs =>
    have hx : x ∈ Order l1_block_height_desc
        (Where (fun r => r.ChainId = chainId) (Table m)) := by
      rw [hS]; exact List.mem_cons_self _ _
    simp only [Order, Where, Table, List.mem_insertionSort, List.mem_filter,
      decide_eq_true_eq] at hx
    simp [hS, FindOne] at h
    rw [← h]
    exact ⟨hx.1.1, hx.1.2, hx.2⟩

/-- The store the closure of `CreateMonitorsInfo` leaves when it returns no error: the
one its three inserts left. -/
theorem fc_fst_of_snd_eq_none (d : Driver) (blockInfo : L1BlockMonitor)
    (txEventMonitors : List L2TxEventMonitor)
    (blockEventMonitors : List L2BlockEventMonitor) (tx : Store)
    (h : (CreateMonitorsInfo.fc d blockInfo txEventMonitors blockEventMonitors tx).2 =
      none) :
    (CreateMonitorsInfo.fc d blockInfo txEventMonitors blockEventMonitors tx).1 =
      (CreateInBatches d
        (CreateInBatches d (Create d tx blockInfo).store InsertInto.l2_tx_event_monitor
          txEventMonitors).store
        InsertInto.l2_block_event_monitor blockEventMonitors).store := by
  unfold CreateMonitorsInfo.fc at h ⊢
  cases h1 : (Create d tx blockInfo).Error with
  | some e => simp [h1] at h
  | none =>
    by_cases h2 : (Create d tx blockInfo).RowsAffected = 0
    · simp [h1, h2] at h
    · simp only [h1, h2, if_false] at h ⊢
      cases h3 : (CreateInBatches d (Create d tx blockInfo).store
          InsertInto.l2_tx_event_monitor txEventMonitors).Error with
      | some e => simp [h3] at h
      | none =>
        by_cases h4 : (CreateInBatches d (Create d tx blockInfo).store
            InsertInto.l2_tx_event_monitor txEventMonitors).RowsAffected =
              (txEventMonitors.length : Int)
        · simp only [h3, h4, ne_eq, not_true_eq_false, if_false] at h ⊢
          cases h5 : (CreateInBatches d
              (CreateInBatches d (Create d tx blockInfo).store
                InsertInto.l2_tx_event_monitor txEventMonitors).store
              InsertInto.l2_block_event_monitor blockEventMonitors).Error with
          | some e => simp [h5] at h
          | none =>
            by_cases h6 : (CreateInBatches d
                (CreateInBatches d (Create d tx blockInfo).store
                  InsertInto.l2_tx_event_monitor txEventMonitors).store
                InsertInto.l2_block_event_monitor blockEventMonitors).RowsAffected =
                  (blockEventMonitors.length : Int)
            · simp [h6]
            · simp [h5, h6] at h
        · simp [h3, h4] at h

/-- A call that commits no ingestion and hands over no record outside a transaction (a
lookup, a `CreateMonitorsInfo` that returns an error, an empty batch) leaves the
store as it was, whatever the database does. -/
theorem Call.store_eq_of_nil (c : Call) (m : Store) (hi : c.ingested m = [])
    (hn : c.inserted = []) : c.store m = m := by
  rcases c with ⟨d, op⟩
  cases op with
  | CreateL1BlockMonitor tx => simp [Call.inserted] at hn
  | CreateL1BlockMonitorsInBatches blockInfos =>
    simp only [Call.inserted] at hn
    subst hn
    simp [Call.store, CreateL1BlockMonitorsInBatches, CreateInBatches]
  | CreateMonitorsInfo blockInfo txEventMonitors blockEventMonitors =>
    simp only [Call.ingested] at hi
    have hne : (CreateMonitorsInfo d m blockInfo txEventMonitors blockEventMonitors).2 ≠
        none := by
      intro h
      simp [h] at hi
    exact Transaction_fst_of_snd_ne_none _ _ _ hne
  | GetL1BlockMonitors => rfl
  | GetLatestL1BlockMonitor => rfl
  | GetL1BlockMonitorsByChainId chainId => rfl
  | GetLatestHandledBlockByChainId chainId => rfl
  | GetL1BlockMonitorsByChainIdAndL1BlockHeight chainId l1BlockHeight => rfl

/-- On a database that adds no row but those handed to it, a block record in the table
after a call was there before, or was committed by the call's successful
`CreateMonitorsInfo`, or was handed over by its `CreateL1BlockMonitor` or
`CreateL1BlockMonitorsInBatches`. -/
theorem Call.store_mem (c : Call) (hd : c.driver.AddsOnlyGiven) (m : Store)
    (b : L1BlockMonitor) (hb : b ∈ (c.store m).l1_block_monitor) :
    b ∈ m.l1_block_monitor ∨ b ∈ c.ingested m ∨ b ∈ c.inserted := by
  rcases c with ⟨d, op⟩
  cases op with
  | CreateL1BlockMonitor tx =>
    have hs : (CreateL1BlockMonitor d m tx).1 = (Create d m tx).store := by
      unfold CreateL1BlockMonitor
      cases h1 : (Create d m tx).Error with
      | some e => simp [h1]
      | none =>
        by_cases h2 : (Create d m tx).RowsAffected = 0
        · simp [h1, h2]
        · simp [h1, h2]
    simp only [Call.store, hs] at hb
    rcases hd m _ b hb with h | ⟨rows, hrows, hmem⟩
    · exact Or.inl h
    · simp only [InsertInto.l1_block_monitor.injEq] at hrows
      subst hrows
      exact Or.inr (Or.inr (by simpa [Call.inserted] using hmem))
  | CreateL1BlockMonitorsInBatches blockInfos =>
    have hs : (CreateL1BlockMonitorsInBatches d m blockInfos).1 =
        (CreateInBatches d m InsertInto.l1_block_monitor blockInfos).store := by
      unfold CreateL1BlockMonitorsInBatches
      cases h1 : (CreateInBatches d m InsertInto.l1_block_monitor blockInfos).Error with
      | some e => simp [h1]
      | none =>
        by_cases h2 : (CreateInBatches d m InsertInto.l1_block_monitor
            blockInfos).RowsAffected = 0
        · simp [h1, h2]
        · simp [h1, h2]
    simp only [Call.store, hs] at hb
    cases blockInfos with
    | nil => exact Or.inl hb
    | cons x xs =>
      rcases hd m _ b hb with h | ⟨rows, hrows, hmem⟩
      · exact Or.inl h
      · simp only [InsertInto.l1_block_monitor.injEq] at hrows
        subst hrows
        exact Or.inr (Or.inr (by simpa [Call.inserted] using hmem))
  | CreateMonitorsInfo blockInfo txEventMonitors blockEventMonitors =>
    simp only [Call.store] at hb
    by_cases hok : (CreateMonitorsInfo d m blockInfo txEventMonitors
        blockEventMonitors).2 = none
    · have h1 : (CreateMonitorsInfo d m blockInfo txEventMonitors
          blockEventMonitors).1 = _ := Transaction_fst_of_snd_eq_none _ _ _ hok
      have h2 := fc_fst_of_snd_eq_none d blockInfo txEventMonitors blockEventMonitors m
        ((Transaction_snd_eq_none_iff _ _ _).1 hok).2.1
      rw [h1, h2] at hb
      have hb2 := CreateInBatches_mem d hd _ InsertInto.l2_block_event_monitor
        (by intro _ _ h; cases h) _ b hb
      have hb3 := CreateInBatches_mem d hd _ InsertInto.l2_tx_event_monitor
        (by intro _ _ h; cases h) _ b hb2
      rcases hd m _ b hb3 with h | ⟨rows, hrows, hmem⟩
      · exact Or.inl h
      · simp only [InsertInto.l1_block_monitor.injEq] at hrows
        subst hrows
        exact Or.inr (Or.inl (by simpa [Call.ingested, hok] using hmem))
    · rw [show (CreateMonitorsInfo d m blockInfo txEventMonitors blockEventMonitors).1 = m
        from Transaction_fst_of_snd_ne_none _ _ _ hok] at hb
      exact Or.inl hb
  | GetL1BlockMonitors => exact Or.inl hb
  | GetLatestL1BlockMonitor => exact Or.inl hb
  | GetL1BlockMonitorsByChainId chainId => exact Or.inl hb
  | GetLatestHandledBlockByChainId chainId => exact Or.inl hb
  | GetL1BlockMonitorsByChainIdAndL1BlockHeight chainId l1BlockHeight => exact Or.inl hb

/-- Along a run on databases that add no row but those handed to them, the block
records of the table stay among those committed by successful `CreateMonitorsInfo`
transactions and those handed over outside a transaction. -/
theorem run_l1_block_monitor (calls : List Call) (t : Trace)
    (hd : ∀ c ∈ calls, c.driver.AddsOnlyGiven)
    (h : ∀ b ∈ t.store.l1_block_monitor, b ∈ t.ingested ∨ b ∈ t.inserted) :
    ∀ b ∈ (run t calls).store.l1_block_monitor,
      b ∈ (run t calls).ingested ∨ b ∈ (run t calls).inserted := by
  induction calls generalizing t with
  | nil => simpa [run] using h
  | cons c cs ih =>
    simp only [run]
    apply ih _ (fun c' hc' => hd c' (List.mem_cons_of_mem _ hc'))
    intro b hb
    simp only [List.mem_append]
    rcases Call.store_mem c (hd c (List.mem_cons_self _ _)) t.store b hb with h1 | h1 | h1
    · rcases h b h1 with h2 | h2
      · exact Or.inl (Or.inl h2)
      · exact Or.inr (Or.inl h2)
    · exact Or.inl (Or.inr h1)
    · exact Or.inr (Or.inr h1)

/-- The database that reports no affected row for a block record adds no row but those
handed to it. -/
theorem reportsZero_addsOnlyGiven : reportsZero.AddsOnlyGiven := by
  intro db stmt b hb
  cases stmt with
  | l1_block_monitor rows =>
    simp only [reportsZero, sqlDriver, sqlExec, List.mem_append] at hb
    exact hb.imp id (fun h => ⟨rows, rfl, h⟩)
  | l2_tx_event_monitor rows =>
    exact Or.inl (by simpa [reportsZero, sqlDriver, sqlExec] using hb)
  | l2_block_event_monitor rows =>
    exact Or.inl (by simpa [reportsZero, sqlDriver, sqlExec] using hb)

/-- C10, the claim as stated fails: from the empty store one `CreateL1BlockMonitor`
call for chain 1 at height 100 adds a block record, and the cursor of chain 1 then
reports height 100 although no `CreateMonitorsInfo` transaction was ever committed. -/
theorem cursor_reports_record_never_ingested :
    (run Trace.init createOnly).store.l1_block_monitor = [block100] ∧
    GetLatestHandledBlockByChainId (run Trace.init createOnly).store 1 =
      (some block100, none) ∧
    (run Trace.init createOnly).ingested = [] := by
  decide

/-- C10 as amended. Cursor monotonicity-by-commit over the reachable states, for every
sequence of data operations of `L1BlockMonitorModel` from the empty store. (1) On
databases that add to the block-record table no row but those handed to them,
whatever errors and affected-row counts they report: every record that
`GetLatestHandledBlockByChainId(C)` reports is a record of chain `C` that was
committed by a `CreateMonitorsInfo` call that returned success, or handed to a
`CreateL1BlockMonitor` or `CreateL1BlockMonitorsInBatches` call (these two write
outside any transaction: the record counts whatever the call returned). (2) On any
database a lookup leaves the store unchanged. (3) On any database a
`CreateMonitorsInfo` call that returns an error leaves the store unchanged. -/
theorem cursor_reports_handed (calls : List Call) :
    ((∀ c ∈ calls, c.driver.AddsOnlyGiven) →
      ∀ (C : Nat) (b : L1BlockMonitor),
        GetLatestHandledBlockByChainId (run Trace.init calls).store C = (some b, none) →
          b.ChainId = C ∧
          (b ∈ (run Trace.init calls).ingested ∨ b ∈ (run Trace.init calls).inserted)) ∧
    (∀ (c : Call) (m : Store), c.op.lookup = true → c.store m = m) ∧
    (∀ (d : Driver) (m : Store) (blockInfo : L1BlockMonitor)
        (txEventMonitors : List L2TxEventMonitor)
        (blockEventMonitors : List L2BlockEventMonitor),
      (CreateMonitorsInfo d m blockInfo txEventMonitors blockEventMonitors).2 ≠ none →
        Call.store { driver := d,
                     op := Op.CreateMonitorsInfo blockInfo txEventMonitors
                       blockEventMonitors } m = m) := by
  refine ⟨?_, ?_, ?_⟩
  · intro hd C b h
    have hmem := GetLatestHandledBlockByChainId_mem _ C b h
    exact ⟨hmem.2.2, run_l1_block_monitor calls Trace.init hd
      (by intro b hb; simp [Trace.init, emptyStore] at hb) b hmem.1⟩
  · rintro ⟨d, op⟩ m hl
    cases op <;> simp [Op.lookup] at hl <;> rfl
  · intro d m blockInfo txEventMonitors blockEventMonitors hne
    exact Transaction_fst_of_snd_ne_none _ _ _ hne

/-- Witness of C10 as amended. On the scenario of §8, height 100 is ingested, the
ingestion of height 101 fails at its tx events and leaves the store and the cursor
at height 100, a lookup follows, and height 102 is inserted in a batch: the cursor
reports height 102, a record handed to `CreateL1BlockMonitorsInBatches`. On a
database that reports no affected row for a block record, the ingestion of height
100 fails and leaves nothing, while `CreateL1BlockMonitor` for height 101 returns an
error and the cursor reports height 101 all the same. -/
theorem cursor_reports_handed_witness :
    GetLatestHandledBlockByChainId (run Trace.init scenarioCalls).store 1 =
      (some block102, none) ∧
    (block102.ChainId = 1 ∧
      (block102 ∈ (run Trace.init scenarioCalls).ingested ∨
        block102 ∈ (run Trace.init scenarioCalls).inserted)) ∧
    (run Trace.init (scenarioCalls.take 2)).store = store100 ∧
    (run Trace.init scenarioCalls).ingested = [block100] ∧
    (CreateL1BlockMonitor reportsZero emptyStore block101).2 =
      (false, some (DbError.New "invalid l1BlockMonitor")) ∧
    GetLatestHandledBlockByChainId (run Trace.init reportsZeroCalls).store 1 =
      (some block101, none) ∧
    (block101.ChainId = 1 ∧
      (block101 ∈ (run Trace.init reportsZeroCalls).ingested ∨
        block101 ∈ (run Trace.init reportsZeroCalls).inserted)) ∧
    (run Trace.init reportsZeroCalls).ingested = [] ∧
    (run Trace.init reportsZeroCalls).store.l1_block_monitor = [block101] :=
  ⟨by decide,
    (cursor_reports_handed scenarioCalls).1
      (by
        intro c hc
        simp only [scenarioCalls, List.mem_cons, List.mem_singleton, List.not_mem_nil,
          or_false] at hc
        rcases hc with rfl | rfl | rfl | rfl
        · exact sqlDriver_addsOnlyGiven
        · exact faultyDriver_addsOnlyGiven _
        · exact sqlDriver_addsOnlyGiven
        · exact sqlDriver_addsOnlyGiven)
      1 block102 (by decide),
    by decide, by decide, by decide, by decide,
    (cursor_reports_handed reportsZeroCalls).1
      (by
        intro c hc
        simp only [reportsZeroCalls, List.mem_cons, List.mem_singleton, List.not_mem_nil,
          or_false] at hc
        rcases hc with rfl | rfl
        · exact reportsZero_addsOnlyGiven
        · exact reportsZero_addsOnlyGiven)
      1 block101 (by decide),
    by decide, by decide⟩

end l1BlockMonitor
